import Mathlib

/-!
Verification of the `corpus_informaticus` volumetric-capsule container library.

This file shallowly embeds the Python modules of the repository into Lean:
byte strings become `List Nat` (each entry a byte value), Python `int`
becomes `Int` (or `Nat` where the source value is a parsed, necessarily
non-negative field), functions that can `raise` become `Except String`
computations, and `dict`s with a fixed key set become structures.

The theorems at the end of the file settle the specification claims about
the codec (`ci3_codec.py`, `codec_v03.py`), the ROI engine (`roi_v06.py`),
the snapshot containers (`snapshot_v07.py`, `snapshot_v08.py`), the tile
grid (`tile_manifest_v07.py`, `tiler_v07.py`, `tile_pack_v07.py`,
`tile_pack_v08.py`) and the geometry selector (`civd_v05_codec.py`).
-/

namespace CorpusInformaticus

/-! ## Generic helpers -/

/-- `Except` success test. -/
def isOk {ε α : Type} : Except ε α → Bool
  | .ok _ => true
  | .error _ => false

/-- Guard helper modelling a Python `if not cond: raise ValueError(msg)` block. -/
def ensure (p : Prop) [Decidable p] (msg : String) : Except String Unit :=
  if p then .ok () else .error msg

theorem ensure_ok_iff {p : Prop} [Decidable p] {msg : String} {u : Unit} :
    ensure p msg = .ok u ↔ p := by
  unfold ensure
  split <;> simp_all

/-- Python slice `l[a:b]` for non-negative bounds. -/
def pySlice (l : List Nat) (a b : Nat) : List Nat := (l.drop a).take (b - a)

/-- The inclusive integer range `[lo, hi]` as a list (empty when `hi < lo`);
this is how `range(lo, hi + 1)` loops are modelled. -/
def intRange (lo hi : Int) : List Int :=
  (List.range (hi + 1 - lo).toNat).map (fun i : Nat => lo + (i : Int))

theorem mem_intRange {lo hi t : Int} : t ∈ intRange lo hi ↔ lo ≤ t ∧ t ≤ hi := by
  simp only [intRange, List.mem_map, List.mem_range]
  constructor
  · rintro ⟨i, h1, rfl⟩
    omega
  · intro h
    exact ⟨(t - lo).toNat, by omega, by omega⟩

/-! ## CRC32 (zlib.crc32)

Standard CRC-32 (polynomial `0xEDB88320` reflected form, initial value
`0xFFFFFFFF`, final xor `0xFFFFFFFF`), as computed by `zlib.crc32` and
already non-negative and `< 2^32` in Python 3 (so the `& 0xFFFFFFFF`
masks in the source are no-ops). -/

/-- One bit step of the CRC-32 computation. -/
def crc32Step (c : Nat) : Nat :=
  if c % 2 = 1 then (c / 2) ^^^ 0xEDB88320 else c / 2

/-- Fold one byte into the running CRC (8 bit steps). -/
def crc32Byte (c b : Nat) : Nat :=
  (List.range 8).foldl (fun acc _ => crc32Step acc) (c ^^^ b)

/-- `zlib.crc32(data)` over a byte list. -/
def crc32 (data : List Nat) : Nat :=
  (data.foldl crc32Byte 0xFFFFFFFF) ^^^ 0xFFFFFFFF

/-! ## struct packing helpers (little-endian) -/

/-- Little-endian `<H` (u16) packing; callers validate `0 ≤ v < 2^16`. -/
def u16le (v : Nat) : List Nat := [v % 256, v / 256]

/-- Little-endian `<I` (u32) packing; callers validate `0 ≤ v < 2^32`. -/
def u32le (v : Nat) : List Nat :=
  [v % 256, v / 256 % 256, v / 65536 % 256, v / 16777216]

/-- Read a little-endian u16 from two bytes. -/
def u16leRead (b0 b1 : Nat) : Nat := b0 + 256 * b1

/-- Read a little-endian u32 from four bytes. -/
def u32leRead (b0 b1 b2 b3 : Nat) : Nat :=
  b0 + 256 * b1 + 65536 * b2 + 16777216 * b3

/-- struct `4s`: pad with zero bytes to four, truncate beyond four. -/
def packBytes4 (m : List Nat) : List Nat :=
  [m.getD 0 0, m.getD 1 0, m.getD 2 0, m.getD 3 0]

theorem u16leRead_u16le {v : Nat} :
    u16leRead (v % 256) (v / 256) = v := by
  unfold u16leRead; omega

theorem u32leRead_u32le {v : Nat} :
    u32leRead (v % 256) (v / 256 % 256) (v / 65536 % 256) (v / 16777216) = v := by
  unfold u32leRead; omega

/-- `FOOTER_STRUCT.unpack`: read a `<I` footer from exactly four bytes. -/
def u32leReadList (l : List Nat) : Except String Nat :=
  match l with
  | [b0, b1, b2, b3] => .ok (u32leRead b0 b1 b2 b3)
  | _ => .error "Expected 4 bytes for footer"

/-! ## CI3 / CIVD header (`ci3_types.py`, `codec_v03.py`)

Both Python modules define a `CI3Header` class over the same 24-byte
layout `<4s H H H H B 3s I I`; we embed it once.  Parsed fields are
non-negative, so they are `Nat`s here. -/

/-- `b"CI3\x00"`. -/
def MAGIC : List Nat := [67, 73, 51, 0]

def VERSION_V01 : Nat := 0x0001
def VERSION_V02 : Nat := 0x0002
def VERSION_V03 : Nat := 0x0003

structure CI3Header where
  magic : List Nat
  version : Nat
  dim_x : Nat
  dim_y : Nat
  dim_z : Nat
  channels : Nat
  reserved1 : List Nat
  orig_length : Nat
  reserved2 : Nat
  deriving Repr, DecidableEq

/-- `dims_to_volume_size` from `ci3_types.py` / `codec_v03.py`. -/
def dims_to_volume_size (x y z channels : Nat) : Nat := x * y * z * channels

/-- `HEADER_STRUCT.pack(...)`: serialize the 24-byte header, validating the
struct field ranges (`H` is u16, `B` is u8, `I` is u32, `3s` pads/truncates
to three bytes just as `4s` does to four). -/
def CI3Header.pack (h : CI3Header) : Except String (List Nat) := do
  ensure (h.version < 65536) "version out of range for u16"
  ensure (h.dim_x < 65536) "dim_x out of range for u16"
  ensure (h.dim_y < 65536) "dim_y out of range for u16"
  ensure (h.dim_z < 65536) "dim_z out of range for u16"
  ensure (h.channels < 256) "channels out of range for u8"
  ensure (h.orig_length < 4294967296) "orig_length out of range for u32"
  ensure (h.reserved2 < 4294967296) "reserved2 out of range for u32"
  pure [h.magic.getD 0 0, h.magic.getD 1 0, h.magic.getD 2 0, h.magic.getD 3 0,
    h.version % 256, h.version / 256,
    h.dim_x % 256, h.dim_x / 256,
    h.dim_y % 256, h.dim_y / 256,
    h.dim_z % 256, h.dim_z / 256,
    h.channels,
    h.reserved1.getD 0 0, h.reserved1.getD 1 0, h.reserved1.getD 2 0,
    h.orig_length % 256, h.orig_length / 256 % 256, h.orig_length / 65536 % 256,
    h.orig_length / 16777216,
    h.reserved2 % 256, h.reserved2 / 256 % 256, h.reserved2 / 65536 % 256,
    h.reserved2 / 16777216]

/-- `CI3Header.unpack`: parse exactly 24 bytes back into a header. -/
def CI3Header.unpack (data : List Nat) : Except String CI3Header :=
  match data with
  | [m0, m1, m2, m3, v0, v1, x0, x1, y0, y1, z0, z1, ch, r0, r1, r2,
     o0, o1, o2, o3, s0, s1, s2, s3] =>
    .ok { magic := [m0, m1, m2, m3]
          version := u16leRead v0 v1
          dim_x := u16leRead x0 x1
          dim_y := u16leRead y0 y1
          dim_z := u16leRead z0 z1
          channels := ch
          reserved1 := [r0, r1, r2]
          orig_length := u32leRead o0 o1 o2 o3
          reserved2 := u32leRead s0 s1 s2 s3 }
  | _ => .error "Expected 24 bytes for header"

/-- `validate_basic` from `ci3_types.py` (v0.1: fixed dims 16x16x16, 1 channel). -/
def CI3Header.validateBasicV01 (h : CI3Header) : Except String Unit := do
  ensure (h.magic = MAGIC) "Invalid magic"
  ensure (h.version = VERSION_V01) "Unsupported version"
  ensure (h.dim_x = 16 ∧ h.dim_y = 16 ∧ h.dim_z = 16) "Unexpected dims"
  ensure (h.channels = 1) "Unexpected channels"
  ensure (h.reserved1 = [0, 0, 0]) "reserved1 must be zero"
  ensure (h.reserved2 = 0) "reserved2 must be zero"

/-- `validate_basic` from `codec_v03.py` (v0.3: any positive dims/channels). -/
def CI3Header.validateBasicV03 (h : CI3Header) : Except String Unit := do
  ensure (h.magic = MAGIC) "Invalid magic"
  ensure (h.version = VERSION_V03) "Unsupported version for codec_v03"
  ensure (0 < h.dim_x ∧ 0 < h.dim_y ∧ 0 < h.dim_z) "All dims must be > 0"
  ensure (0 < h.channels) "channels must be > 0"
  ensure (h.reserved1 = [0, 0, 0]) "reserved1 must be zero"
  ensure (h.reserved2 = 0) "reserved2 must be zero"

/-! ## CI3 v0.1 / v0.2 codec (`ci3_codec.py`) -/

def DEFAULT_DIMS : Nat × Nat × Nat := (16, 16, 16)
def DEFAULT_CHANNELS : Nat := 1
def MAX_PAYLOAD_V01 : Nat := 16 * 16 * 16 * 1
def DIMS_V02 : Nat × Nat × Nat := (16, 16, 16)
def CHANNELS_V02 : Nat := 4

/-- `encode_bytes_to_ci3`: fixed 16x16x16, 1 channel; the fill loop writes
`data` at the front of the zero-initialised 4096-byte volume. -/
def encode_bytes_to_ci3 (data : List Nat) : Except String (List Nat) := do
  let orig_length := data.length
  ensure (orig_length ≤ MAX_PAYLOAD_V01) "Payload too large for v0.1 corpus"
  let volume_size := dims_to_volume_size 16 16 16 1
  let volume := data ++ List.replicate (volume_size - orig_length) 0
  let crc32_value := crc32 volume
  let header : CI3Header :=
    { magic := MAGIC, version := VERSION_V01, dim_x := 16, dim_y := 16, dim_z := 16,
      channels := 1, reserved1 := [0, 0, 0], orig_length := orig_length, reserved2 := 0 }
  let header_bytes ← header.pack
  pure (header_bytes ++ volume ++ u32le crc32_value)

/-- `decode_ci3`: header + basic validation + exact size + CRC gate +
orig-length gate, then the first `orig_length` bytes of the volume. -/
def decode_ci3 (data : List Nat) : Except String (List Nat × CI3Header) := do
  ensure (24 + 4 ≤ data.length) "Data too short to be a valid CI3 file"
  let header ← CI3Header.unpack (data.take 24)
  header.validateBasicV01
  let volume_size := dims_to_volume_size header.dim_x header.dim_y header.dim_z header.channels
  ensure (data.length = 24 + volume_size + 4) "Unexpected CI3 size"
  let volume_bytes := pySlice data 24 (24 + volume_size)
  let crc32_stored ← u32leReadList (pySlice data (24 + volume_size) (24 + volume_size + 4))
  let crc32_calc := crc32 volume_bytes
  ensure (crc32_calc = crc32_stored) "CRC32 mismatch"
  let orig_length := header.orig_length
  ensure (orig_length ≤ volume_size) "orig_length in header exceeds volume capacity"
  pure (volume_bytes.take orig_length, header)

/-- `encode_bytes_to_ci3_v02`: 16x16x16, 4 channels; each voxel gets
`[payload, 255, 0, 0]`. -/
def encode_bytes_to_ci3_v02 (data : List Nat) : Except String (List Nat) := do
  let orig_length := data.length
  let num_voxels := 16 * 16 * 16
  ensure (orig_length ≤ num_voxels) "Payload too large for v0.2 corpus"
  let volume := (List.range num_voxels).flatMap
    (fun i => [if i < orig_length then data.getD i 0 else 0, 255, 0, 0])
  let crc32_value := crc32 volume
  let header : CI3Header :=
    { magic := MAGIC, version := VERSION_V02, dim_x := 16, dim_y := 16, dim_z := 16,
      channels := 4, reserved1 := [0, 0, 0], orig_length := orig_length, reserved2 := 0 }
  let header_bytes ← header.pack
  pure (header_bytes ++ volume ++ u32le crc32_value)

/-- `decode_ci3_v02`: manual magic/version/dims/channels validation, exact
size, CRC gate, orig-length gate, then the payload channel (byte 0 of each
voxel). -/
def decode_ci3_v02 (data : List Nat) : Except String (List Nat × CI3Header) := do
  ensure (24 + 4 ≤ data.length) "Data too short to be a valid CI3 file"
  let header ← CI3Header.unpack (data.take 24)
  ensure (header.magic = MAGIC) "Invalid magic for CI3 v0.2"
  ensure (header.version = VERSION_V02) "Unsupported version for v0.2 decoder"
  ensure (header.dim_x = 16 ∧ header.dim_y = 16 ∧ header.dim_z = 16) "Unexpected dims for v0.2"
  ensure (header.channels = CHANNELS_V02) "Unexpected channels for v0.2"
  let num_voxels := header.dim_x * header.dim_y * header.dim_z
  let volume_size := num_voxels * header.channels
  ensure (data.length = 24 + volume_size + 4) "Unexpected CI3 v0.2 size"
  let volume_bytes := pySlice data 24 (24 + volume_size)
  let crc32_stored ← u32leReadList (pySlice data (24 + volume_size) (24 + volume_size + 4))
  let crc32_calc := crc32 volume_bytes
  ensure (crc32_calc = crc32_stored) "CRC32 mismatch for v0.2"
  let orig_length := header.orig_length
  ensure (orig_length ≤ num_voxels) "orig_length in header exceeds voxel capacity for v0.2"
  let out := (List.range orig_length).map (fun i => volume_bytes.getD (i * header.channels) 0)
  pure (out, header)

/-! ## CIVD v0.3 codec (`codec_v03.py`) -/

/-- The `info` dict returned by `decode_civd_v03`. -/
structure CivdInfoV03 where
  header : CI3Header
  dims : Nat × Nat × Nat
  channels : Nat
  capacity : Nat
  crc_ok : Bool
  deriving Repr, DecidableEq

/-- `encode_bytes_to_civd_v03`: validates dims/channels, pads the payload to
capacity, and emits header ∥ volume ∥ CRC32 footer. -/
def encode_bytes_to_civd_v03 (payload : List Nat) (dims : Int × Int × Int)
    (channels : Int) : Except String (List Nat) := do
  ensure (0 < channels) "channels must be > 0"
  let (dx, dy, dz) := dims
  ensure (0 < dx ∧ 0 < dy ∧ 0 < dz) "All dims must be > 0"
  let capacity := dims_to_volume_size dx.toNat dy.toNat dz.toNat channels.toNat
  ensure (payload.length ≤ capacity) "Payload too large"
  let header : CI3Header :=
    { magic := MAGIC, version := VERSION_V03, dim_x := dx.toNat, dim_y := dy.toNat,
      dim_z := dz.toNat, channels := channels.toNat, reserved1 := [0, 0, 0],
      orig_length := payload.length, reserved2 := 0 }
  let header_bytes ← header.pack
  let volume := payload ++ List.replicate (capacity - payload.length) 0
  let crc := crc32 volume
  pure (header_bytes ++ volume ++ u32le crc)

/-- `decode_civd_v03`: validates header and volume length, recomputes the
CRC into a `crc_ok` flag (the source does NOT raise on CRC mismatch), and
returns `volume[:orig_length]` with no orig-length-vs-capacity check. -/
def decode_civd_v03 (blob : List Nat) :
    Except String (List Nat × CivdInfoV03) := do
  ensure (24 + 4 ≤ blob.length) "Blob too small to contain header + footer"
  let header ← CI3Header.unpack (blob.take 24)
  header.validateBasicV03
  let capacity := dims_to_volume_size header.dim_x header.dim_y header.dim_z header.channels
  let volume := pySlice blob 24 (blob.length - 4)
  ensure (volume.length = capacity) "Volume length != capacity"
  let crc_stored ← u32leReadList (blob.drop (blob.length - 4))
  let crc_calc := crc32 volume
  let crc_ok := decide (crc_calc = crc_stored)
  let payload := volume.take header.orig_length
  pure (payload,
    { header := header, dims := (header.dim_x, header.dim_y, header.dim_z),
      channels := header.channels, capacity := capacity, crc_ok := crc_ok })

/-! ## ROI engine (`roi_v06.py`)

`VolumeSpecV06` mirrors the frozen dataclass; `np.dtype(...).itemsize` is
modelled for the dtypes the container formats themselves enumerate
(`uint8`, `uint16`, `float32`); any other dtype string errors, like an
unknown dtype name does in NumPy. -/

def dtypeItemsize : String → Option Nat
  | "uint8" => some 1
  | "uint16" => some 2
  | "float32" => some 4
  | _ => none

structure VolumeSpecV06 where
  dims : Int × Int × Int
  channels : Int
  dtype : String := "uint8"
  order : String := "C"
  signature : String := "C_CONTIG"
  deriving Repr, DecidableEq

/-- `expected_nbytes`: `x*y*z*channels*itemsize` (errors on unknown dtype,
as `np.dtype` does). -/
def VolumeSpecV06.expected_nbytes (s : VolumeSpecV06) : Except String Int := do
  match dtypeItemsize s.dtype with
  | none => .error "unknown dtype"
  | some k => pure (s.dims.1 * s.dims.2.1 * s.dims.2.2 * s.channels * (k : Int))

/-- Flat element index of voxel `(xi, yi, zi)` channel `ci` in the
`(z, y, x, C)`-shaped reshape of the element array, for memory order
`"C"` (row-major) or `"F"` (column-major). -/
def flatIndex (order : String) (x y _z C xi yi zi ci : Nat) : Nat :=
  if order = "C" then ((zi * y + yi) * x + xi) * C + ci
  else zi + _z * (yi + y * (xi + x * ci))

/-- The ROI tensor returned by `read_region_from_bytes`: logical shape
`(d, h, w, C_sel)` plus the bytes of the (copied) array serialized in
C-contiguous order. -/
structure TensorV06 where
  shape : Int × Int × Int × Int
  data : List Nat
  deriving Repr, DecidableEq

/-- `read_region_from_bytes`: buffer/signature/order validation from
`_volume_view_from_bytes`, then the strict per-axis bounds checks
`0 ≤ o < o + e ≤ dim`, then channel-subset validation, then extraction. -/
def read_region_from_bytes (buf : List Nat) (spec : VolumeSpecV06)
    (x y z w h d : Int) (channels : Option (List Int)) :
    Except String TensorV06 := do
  let k ← match dtypeItemsize spec.dtype with
    | none => .error "unknown dtype"
    | some k => pure k
  let (x_max, y_max, z_max) := spec.dims
  let expected := x_max * y_max * z_max * spec.channels * (k : Int)
  ensure ((buf.length : Int) = expected) "Buffer size does not match expected"
  ensure (spec.signature = "C_CONTIG" ∨ spec.signature = "F_CONTIG")
    "Volume signature is not implemented yet"
  ensure (spec.order = "C" ∨ spec.order = "F") "Unsupported order"
  let (x0, y0, z0) := (x, y, z)
  let (x1, y1, z1) := (x + w, y + h, z + d)
  ensure (0 ≤ x0 ∧ x0 < x1 ∧ x1 ≤ x_max) "ROI x-range is out of bounds"
  ensure (0 ≤ y0 ∧ y0 < y1 ∧ y1 ≤ y_max) "ROI y-range is out of bounds"
  ensure (0 ≤ z0 ∧ z0 < z1 ∧ z1 ≤ z_max) "ROI z-range is out of bounds"
  let csel ← match channels with
    | none => pure ((List.range spec.channels.toNat).map (fun c : Nat => (c : Int)))
    | some cs => do
        ensure (∀ c ∈ cs, 0 ≤ c ∧ c < spec.channels) "Requested channel index is out of range"
        pure cs
  let (wN, hN, dN, cN) := (w.toNat, h.toNat, d.toNat, csel.length)
  let data := (List.range (dN * hN * wN * cN * k)).map (fun n =>
    let j := n % k
    let idx := n / k
    let ci := idx % cN
    let r1 := idx / cN
    let dxi := r1 % wN
    let r2 := r1 / wN
    let dyi := r2 % hN
    let dzi := r2 / hN
    let c := (csel.getD ci 0).toNat
    buf.getD (flatIndex spec.order x_max.toNat y_max.toNat z_max.toNat spec.channels.toNat
      (x0.toNat + dxi) (y0.toNat + dyi) (z0.toNat + dzi) c * k + j) 0)
  pure { shape := (d, h, w, (cN : Int)), data := data }

/-- The ROI dataclass `RoiV06`. -/
structure RoiV06 where
  x : Int
  y : Int
  z : Int
  w : Int
  h : Int
  d : Int
  deriving Repr, DecidableEq

/-- `_clamp_interval`: clamp `[start, start+length)` to `[0, max_size)`,
returning `(0, 0)` for empty results. -/
def clampInterval (start length max_size : Int) : Int × Int :=
  if length ≤ 0 then (0, 0)
  else
    let s := max 0 start
    let e := min max_size (start + length)
    if e ≤ s then (0, 0) else (s, e - s)

/-- `clamp_roi`. -/
def clamp_roi (roi : RoiV06) (dims : Int × Int × Int) : RoiV06 :=
  let xw := clampInterval roi.x roi.w dims.1
  let yh := clampInterval roi.y roi.h dims.2.1
  let zd := clampInterval roi.z roi.d dims.2.2
  { x := xw.1, y := yh.1, z := zd.1, w := xw.2, h := yh.2, d := zd.2 }

/-! ## Snapshot container v0.7 (`snapshot_v07.py`)

The on-disk layout is magic ∥ u32 header length ∥ JSON header ∥ volume.
The JSON header is a dict with the fixed key set written by
`_build_header_dict`; we model the serialized blob structurally as that
dict plus the raw volume bytes (the `json.dumps`/`json.loads` cycle on the
dict, and the magic/length framing, are taken as faithful). -/

/-- JSON-representable metadata values (numbers restricted to integers). -/
inductive Json where
  | null : Json
  | bool : Bool → Json
  | num : Int → Json
  | str : String → Json
  | arr : List Json → Json
  | obj : List (String × Json) → Json

structure SnapshotHeaderV07 where
  version : String
  layout : String
  dims : Int × Int × Int
  channels : Int
  dtype : String
  signature : String
  meta : Option Json

/-- The header dict written by `_build_header_dict` (fixed key set;
note there is NO "order" key). -/
structure HeaderDictV07 where
  version : String
  layout : String
  dims : Int × Int × Int
  channels : Int
  dtype : String
  signature : String
  meta : Option Json

/-- `_build_header_dict`: records dims/channels/dtype/signature/meta but
not `spec.order`. -/
def buildHeaderDict (spec : VolumeSpecV06) (meta : Option Json) : HeaderDictV07 :=
  { version := "0.7", layout := "SNAPSHOT_V07", dims := spec.dims,
    channels := spec.channels, dtype := spec.dtype, signature := spec.signature,
    meta := meta }

/-- `_header_from_dict`. -/
def headerFromDict (d : HeaderDictV07) : SnapshotHeaderV07 :=
  { version := d.version, layout := d.layout, dims := d.dims, channels := d.channels,
    dtype := d.dtype, signature := d.signature, meta := d.meta }

/-- `_spec_from_header`: the reconstructed spec always has `order = "C"`. -/
def specFromHeader (hdr : SnapshotHeaderV07) : VolumeSpecV06 :=
  { dims := hdr.dims, channels := hdr.channels, dtype := hdr.dtype,
    order := "C", signature := hdr.signature }

/-- A serialized v0.7 snapshot (header dict + volume bytes). -/
structure SnapBlobV07 where
  headerDict : HeaderDictV07
  volume : List Nat

/-- `write_snapshot_v07` (in-memory result; the optional file write has no
bearing on the returned blob). -/
def write_snapshot_v07 (volume_bytes : List Nat) (spec : VolumeSpecV06)
    (meta : Option Json) : Except String (SnapBlobV07 × SnapshotHeaderV07) := do
  let expected ← spec.expected_nbytes
  ensure ((volume_bytes.length : Int) = expected)
    "volume_bytes length does not match expected"
  let header_dict := buildHeaderDict spec meta
  pure ({ headerDict := header_dict, volume := volume_bytes },
    headerFromDict header_dict)

/-- `read_snapshot_v07`. -/
def read_snapshot_v07 (blob : SnapBlobV07) :
    Except String (SnapshotHeaderV07 × VolumeSpecV06 × List Nat) := do
  let hdr := headerFromDict blob.headerDict
  ensure (hdr.layout = "SNAPSHOT_V07") "Unexpected snapshot layout"
  let spec := specFromHeader hdr
  let expected ← spec.expected_nbytes
  ensure ((blob.volume.length : Int) = expected)
    "Snapshot volume length does not match expected"
  pure (hdr, spec, blob.volume)

/-- `read_roi_from_snapshot_v07`: read, clamp defensively, extract. -/
def read_roi_from_snapshot_v07 (blob : SnapBlobV07) (roi : RoiV06)
    (channels : Option (List Int)) : Except String TensorV06 := do
  let (_hdr, spec, vol_bytes) ← read_snapshot_v07 blob
  let clamped := clamp_roi roi spec.dims
  read_region_from_bytes vol_bytes spec clamped.x clamped.y clamped.z
    clamped.w clamped.h clamped.d channels

/-- Modelled from the spec: "`read_roi` = `read` (header+spec, payload) →
`clamp_roi` → `ROI Engine.read_region`" — the reference pipeline a
snapshot ROI read is claimed to equal. -/
def specSnapshotRoiPipelineV07 (blob : SnapBlobV07) (roi : RoiV06)
    (channels : Option (List Int)) : Except String TensorV06 := do
  let (_hdr, spec, payload) ← read_snapshot_v07 blob
  let r := clamp_roi roi spec.dims
  read_region_from_bytes payload spec r.x r.y r.z r.w r.h r.d channels

/-! ## Snapshot container v0.8 (`snapshot_v08.py`)

Binary header: magic ∥ version(u16) ∥ header_len(u16) ∥ fixed core fields
(dims as 3×u32, channels u32, dtype/signature/order codes) ∥
length-prefixed strings (schema id, schema version, metadata JSON) ∥
payload.  We model the blob structurally as those fields; the u16
header-length framing (which bounds the metadata at 64 KiB) is not
modelled. -/

def DTYPE_CODE_V08 : String → Option Nat
  | "uint8" => some 1
  | "uint16" => some 2
  | "float32" => some 3
  | _ => none

def DTYPE_NAME_V08 : Nat → Option String
  | 1 => some "uint8"
  | 2 => some "uint16"
  | 3 => some "float32"
  | _ => none

def SIG_CODE_V08 : String → Option Nat
  | "C_CONTIG" => some 1
  | "F_CONTIG" => some 2
  | _ => none

def SIG_NAME_V08 : Nat → Option String
  | 1 => some "C_CONTIG"
  | 2 => some "F_CONTIG"
  | _ => none

def ORDER_CODE_V08 : String → Option Nat
  | "C" => some 1
  | "F" => some 2
  | _ => none

def ORDER_NAME_V08 : Nat → Option String
  | 1 => some "C"
  | 2 => some "F"
  | _ => none

/-- `opt.getD`-style lift of a dict `.get` whose `None` case raises. -/
def ofOption {α : Type} : Option α → String → Except String α
  | some a, _ => .ok a
  | none, msg => .error msg

structure SnapshotHeaderV08 where
  version : String
  schema_id : String
  schema_version : String
  dims : Int × Int × Int
  channels : Int
  dtype : String
  signature : String
  order : String
  meta : Json

/-- A serialized v0.8 snapshot (core header fields + payload). -/
structure SnapBlobV08 where
  dims : Int × Int × Int
  channels : Int
  dtype_code : Nat
  sig_code : Nat
  order_code : Nat
  schema_id : String
  schema_version : String
  meta_json : Json
  payload : List Nat

/-- `write_snapshot_v08` (the blob stands for the bytes written to `path`).
`_SNAP_CORE.pack` validates the u32 ranges of dims and channels. -/
def write_snapshot_v08 (volume_buf : List Nat) (spec : VolumeSpecV06)
    (meta : Option Json) (schema_id : String) (schema_version : String) :
    Except String (SnapBlobV08 × SnapshotHeaderV08) := do
  let meta' := meta.getD (.obj [])
  let dtype_code ← ofOption (DTYPE_CODE_V08 spec.dtype) "Unsupported dtype"
  let sig_code ← ofOption (SIG_CODE_V08 spec.signature) "Unsupported signature"
  let order_code ← ofOption (ORDER_CODE_V08 spec.order) "Unsupported order"
  let (dx, dy, dz) := spec.dims
  ensure (0 ≤ dx ∧ dx < 4294967296 ∧ 0 ≤ dy ∧ dy < 4294967296 ∧
    0 ≤ dz ∧ dz < 4294967296) "dims out of range for u32"
  ensure (0 ≤ spec.channels ∧ spec.channels < 4294967296) "channels out of range for u32"
  let expected ← spec.expected_nbytes
  ensure ((volume_buf.length : Int) = expected) "volume_buf size != expected"
  pure ({ dims := spec.dims, channels := spec.channels, dtype_code := dtype_code,
          sig_code := sig_code, order_code := order_code, schema_id := schema_id,
          schema_version := schema_version, meta_json := meta', payload := volume_buf },
        { version := "0.8", schema_id := schema_id, schema_version := schema_version,
          dims := spec.dims, channels := spec.channels, dtype := spec.dtype,
          signature := spec.signature, order := spec.order, meta := meta' })

/-- `read_snapshot_v08`. -/
def read_snapshot_v08 (blob : SnapBlobV08) :
    Except String (SnapshotHeaderV08 × VolumeSpecV06 × List Nat) := do
  let dtype ← ofOption (DTYPE_NAME_V08 blob.dtype_code) "Unknown dtype/signature/order in header"
  let signature ← ofOption (SIG_NAME_V08 blob.sig_code) "Unknown dtype/signature/order in header"
  let order ← ofOption (ORDER_NAME_V08 blob.order_code) "Unknown dtype/signature/order in header"
  let meta := blob.meta_json
  let spec : VolumeSpecV06 :=
    { dims := blob.dims, channels := blob.channels, dtype := dtype,
      order := order, signature := signature }
  let expected ← spec.expected_nbytes
  ensure ((blob.payload.length : Int) = expected) "Snapshot payload size mismatch vs spec"
  pure ({ version := "0.8", schema_id := blob.schema_id,
          schema_version := blob.schema_version, dims := blob.dims,
          channels := blob.channels, dtype := dtype, signature := signature,
          order := order, meta := meta },
        spec, blob.payload)

/-- `read_roi_from_snapshot_v08`: passes the caller's ROI bounds straight
to `read_region_from_bytes` — there is NO clamping step. -/
def read_roi_from_snapshot_v08 (blob : SnapBlobV08) (x y z w h d : Int)
    (channels : Option (List Int)) : Except String TensorV06 := do
  let (_header, spec, payload) ← read_snapshot_v08 blob
  read_region_from_bytes payload spec x y z w h d channels

/-- Modelled from the spec: the clamped pipeline `read` → `clamp_roi` →
`read_region` applied to a v0.8 snapshot — the behaviour the claim
asserts for `read_roi_from_snapshot_v08`. -/
def specSnapshotRoiPipelineV08 (blob : SnapBlobV08) (roi : RoiV06)
    (channels : Option (List Int)) : Except String TensorV06 := do
  let (_hdr, spec, payload) ← read_snapshot_v08 blob
  let r := clamp_roi roi spec.dims
  read_region_from_bytes payload spec r.x r.y r.z r.w r.h r.d channels

/-! ## Tile grid (`tile_manifest_v07.py`)

Python `//` is floor division; all the divisions below happen on
non-negative operands (the dataclass `__post_init__` validates dims and
tile sizes positive), where `Int.ediv` coincides with it. -/

structure TileIndexV07 where
  tx : Int
  ty : Int
  tz : Int
  deriving Repr, DecidableEq

structure TileGridSpecV07 where
  dims : Int × Int × Int
  tile : Int × Int × Int
  deriving Repr, DecidableEq

/-- The `__post_init__` validation of `TileGridSpecV07`. -/
def mkTileGridSpecV07 (dims tile : Int × Int × Int) : Except String TileGridSpecV07 := do
  ensure (0 < dims.1 ∧ 0 < dims.2.1 ∧ 0 < dims.2.2) "dims must be positive"
  ensure (0 < tile.1 ∧ 0 < tile.2.1 ∧ 0 < tile.2.2) "tile must be positive"
  pure { dims := dims, tile := tile }

/-- The local `ceil_div(a, b) = (a + b - 1) // b` helper of `grid_dims`. -/
def gridCeilDiv (a b : Int) : Int := (a + b - 1) / b

/-- `grid_dims`: number of tiles along each axis, by ceil division. -/
def TileGridSpecV07.grid_dims (g : TileGridSpecV07) : Int × Int × Int :=
  (gridCeilDiv g.dims.1 g.tile.1, gridCeilDiv g.dims.2.1 g.tile.2.1,
   gridCeilDiv g.dims.2.2 g.tile.2.2)

/-- `tile_count`. -/
def TileGridSpecV07.tile_count (g : TileGridSpecV07) : Int :=
  g.grid_dims.1 * g.grid_dims.2.1 * g.grid_dims.2.2

/-- `tile_bounds`: global voxel bounds `(x0, x1, y0, y1, z0, z1)` of a tile,
with the upper bounds clipped to the volume; errors on an out-of-range
index. -/
def TileGridSpecV07.tile_bounds (g : TileGridSpecV07) (idx : TileIndexV07) :
    Except String (Int × Int × Int × Int × Int × Int) := do
  let (x, y, z) := g.dims
  let (tx, ty, tz) := g.tile
  let (gx, gy, gz) := g.grid_dims
  ensure (0 ≤ idx.tx ∧ idx.tx < gx ∧ 0 ≤ idx.ty ∧ idx.ty < gy ∧
    0 ≤ idx.tz ∧ idx.tz < gz) "Tile index out of range"
  let x0 := idx.tx * tx
  let y0 := idx.ty * ty
  let z0 := idx.tz * tz
  pure (x0, min (x0 + tx) x, y0, min (y0 + ty) y, z0, min (z0 + tz) z)

/-- The fields of `TileManifestV07` used by the tiler. -/
structure TileManifestV07 where
  version : String
  grid : TileGridSpecV07
  channels : Int
  dtype : String
  order : String := "C"
  signature : String := "C_CONTIG"
  deriving Repr, DecidableEq

/-! ## ROI → tile resolution (`tiler_v07.py`) -/

/-- `tiles_for_roi`: early-outs for ROIs outside the volume or degenerate
after clamping, then the rectangular block of tile indices from
`floor(lo / tile)` to `floor((hi - 1) / tile)` per axis, clamped into the
grid. -/
def tiles_for_roi (manifest : TileManifestV07) (roi : RoiV06) : List TileIndexV07 :=
  let (dx, dy, dz) := manifest.grid.dims
  let (txs, tys, tzs) := manifest.grid.tile
  let x0 := roi.x
  let y0 := roi.y
  let z0 := roi.z
  let x1 := roi.x + roi.w
  let y1 := roi.y + roi.h
  let z1 := roi.z + roi.d
  if dx ≤ x0 ∨ dy ≤ y0 ∨ dz ≤ z0 then []
  else if x1 ≤ 0 ∨ y1 ≤ 0 ∨ z1 ≤ 0 then []
  else
    let x0c := max 0 x0
    let y0c := max 0 y0
    let z0c := max 0 z0
    let x1c := min dx x1
    let y1c := min dy y1
    let z1c := min dz z1
    if x1c ≤ x0c ∨ y1c ≤ y0c ∨ z1c ≤ z0c then []
    else
      let (gx, gy, gz) := manifest.grid.grid_dims
      let tx_start := max 0 (min (x0c / txs) (gx - 1))
      let ty_start := max 0 (min (y0c / tys) (gy - 1))
      let tz_start := max 0 (min (z0c / tzs) (gz - 1))
      let tx_end := max 0 (min ((x1c - 1) / txs) (gx - 1))
      let ty_end := max 0 (min ((y1c - 1) / tys) (gy - 1))
      let tz_end := max 0 (min ((z1c - 1) / tzs) (gz - 1))
      (intRange tz_start tz_end).flatMap (fun tz =>
        (intRange ty_start ty_end).flatMap (fun ty =>
          (intRange tx_start tx_end).map (fun tx =>
            { tx := tx, ty := ty, tz := tz })))

/-! ## Tile pack v0.7 (`tile_pack_v07.py`) -/

structure TilingSpecV07 where
  volume_dims : Int × Int × Int
  tile_size : Int × Int × Int
  tiles_per_axis : Int × Int × Int
  deriving Repr, DecidableEq

/-- Exact integer ceiling division; models `math.ceil(a / b)` (float true
division in the source, exact for the volume sizes representable here). -/
def ceilDivInt (a b : Int) : Int := -(-a / b)

/-- `_compute_tiles_per_axis`. -/
def computeTilesPerAxis (volume_dims tile_size : Int × Int × Int) :
    Except String (Int × Int × Int) := do
  let (x, y, z) := volume_dims
  let (tx, ty, tz) := tile_size
  ensure (0 < tx ∧ 0 < ty ∧ 0 < tz) "Tile size must be > 0"
  pure (ceilDivInt x tx, ceilDivInt y ty, ceilDivInt z tz)

/-- `query_tiles_for_roi`: scans every grid index and keeps those whose
clipped bounds are non-empty and strictly overlap the (unclamped) ROI
bounds on all three axes. -/
def query_tiles_for_roi (ts : TilingSpecV07) (roi : RoiV06) : List TileIndexV07 :=
  let (x_max, y_max, z_max) := ts.volume_dims
  let (txs, tys, tzs) := ts.tile_size
  let (nx, ny, nz) := ts.tiles_per_axis
  let x0_roi := roi.x
  let y0_roi := roi.y
  let z0_roi := roi.z
  let x1_roi := roi.x + roi.w
  let y1_roi := roi.y + roi.h
  let z1_roi := roi.z + roi.d
  (intRange 0 (nz - 1)).flatMap (fun tzi =>
    let z0 := tzi * tzs
    let z1 := min (z0 + tzs) z_max
    if z1 ≤ z0 then []
    else if ¬(z0 < z1_roi ∧ z0_roi < z1) then []
    else
      (intRange 0 (ny - 1)).flatMap (fun tyi =>
        let y0 := tyi * tys
        let y1 := min (y0 + tys) y_max
        if y1 ≤ y0 then []
        else if ¬(y0 < y1_roi ∧ y0_roi < y1) then []
        else
          (intRange 0 (nx - 1)).filterMap (fun txi =>
            let x0 := txi * txs
            let x1 := min (x0 + txs) x_max
            if x1 ≤ x0 then none
            else if ¬(x0 < x1_roi ∧ x0_roi < x1) then none
            else some { tx := txi, ty := tyi, tz := tzi })))

/-- v0.7 tile payload: the clipped sub-block `vol[z0:z1, y0:y1, x0:x1, :]`
serialized by `.tobytes()` (C order, elements of `itemsize` bytes). -/
def tilePayloadV07 (buf : List Nat) (spec : VolumeSpecV06) (k : Nat)
    (x0 x1 y0 y1 z0 z1 : Int) : List Nat :=
  let cN := spec.channels.toNat
  let (ezN, eyN, exN) := ((z1 - z0).toNat, (y1 - y0).toNat, (x1 - x0).toNat)
  (List.range (ezN * eyN * exN * cN * k)).map (fun n =>
    let j := n % k
    let e := n / k
    let ch := e % cN
    let c := e / cN % exN
    let b := e / (cN * exN) % eyN
    let a := e / (cN * exN * eyN)
    buf.getD (flatIndex spec.order spec.dims.1.toNat spec.dims.2.1.toNat
      spec.dims.2.2.toNat cN (x0.toNat + c) (y0.toNat + b) (z0.toNat + a) ch * k + j) 0)

/-- `tile_volume_buffer` (v0.7): tile-size validation, full-volume view
checks, then one clipped tile per non-empty grid cell. -/
def tile_volume_buffer (buf : List Nat) (spec : VolumeSpecV06)
    (tile_size : Int × Int × Int) :
    Except String (TilingSpecV07 × List (TileIndexV07 × List Nat)) := do
  let (x_max, y_max, z_max) := spec.dims
  let (txv, tyv, tzv) := tile_size
  let tiles_per_axis ← computeTilesPerAxis spec.dims tile_size
  let tiling_spec : TilingSpecV07 :=
    { volume_dims := spec.dims, tile_size := tile_size, tiles_per_axis := tiles_per_axis }
  let k ← ofOption (dtypeItemsize spec.dtype) "unknown dtype"
  ensure ((buf.length : Int) = x_max * y_max * z_max * spec.channels * k)
    "Buffer size does not match expected"
  ensure (spec.order = "C" ∨ spec.order = "F") "Unsupported order"
  let (tiles_x, tiles_y, tiles_z) := tiles_per_axis
  let tiles := (intRange 0 (tiles_z - 1)).flatMap (fun tzi =>
    let z0 := tzi * tzv
    let z1 := min (z0 + tzv) z_max
    if z1 ≤ z0 then []
    else
      (intRange 0 (tiles_y - 1)).flatMap (fun tyi =>
        let y0 := tyi * tyv
        let y1 := min (y0 + tyv) y_max
        if y1 ≤ y0 then []
        else
          (intRange 0 (tiles_x - 1)).filterMap (fun txi =>
            let x0 := txi * txv
            let x1 := min (x0 + txv) x_max
            if x1 ≤ x0 then none
            else some ({ tx := txi, ty := tyi, tz := tzi },
              tilePayloadV07 buf spec k x0 x1 y0 y1 z0 z1))))
  pure (tiling_spec, tiles)

/-! ## Tile pack v0.8 (`tile_pack_v08.py`) -/

structure TilingSpecV08 where
  volume_dims : Int × Int × Int
  tile_size : Int × Int × Int
  tiles_per_axis : Int × Int × Int
  deriving Repr, DecidableEq

/-- `compute_tiling_spec_v08`. -/
def compute_tiling_spec_v08 (volume_dims tile_size : Int × Int × Int) :
    Except String TilingSpecV08 := do
  let (x, y, z) := volume_dims
  let (sx, sy, sz) := tile_size
  ensure (0 < sx ∧ 0 < sy ∧ 0 < sz) "tile_size must be positive"
  pure { volume_dims := volume_dims, tile_size := tile_size,
         tiles_per_axis := ((x + sx - 1) / sx, (y + sy - 1) / sy,
                            (z + sz - 1) / sz) }

/-- Decode the flat byte offset `n` of a serialized `(sz, sy, sx, C)` tile
into its element coordinates `(a, b, c, ch)`: `.tobytes(order="C")` varies
the channel fastest and the z axis slowest, `.tobytes(order="F")` varies
the z axis fastest and the channel slowest; elements occupy `k`
(`itemsize`) consecutive bytes either way. -/
def tileByteCoordsV08 (order : String) (szN syN sxN cN k : Nat) (n : Nat) :
    Nat × Nat × Nat × Nat :=
  let e := n / k
  if order = "C" then
    (e / (syN * sxN * cN), e / (sxN * cN) % syN, e / cN % sxN, e % cN)
  else
    (e % szN, e / szN % syN, e / (szN * syN) % sxN, e / (szN * syN * sxN))

/-- v0.8 tile payload: the sub-block `vol[z0:z1, y0:y1, x0:x1, :]`
zero-padded (`np.pad`, constant mode) at the high end of each spatial axis
up to the full `(sz, sy, sx, C)` tile shape, then serialized by
`.tobytes(order=spec.order)`. -/
def tilePayloadV08 (buf : List Nat) (spec : VolumeSpecV06) (k : Nat)
    (sx sy sz : Int) (tx ty tz : Int) : List Nat :=
  let (dx, dy, dz) := spec.dims
  let x0 := tx * sx
  let y0 := ty * sy
  let z0 := tz * sz
  let x1 := min (x0 + sx) dx
  let y1 := min (y0 + sy) dy
  let z1 := min (z0 + sz) dz
  let cN := spec.channels.toNat
  (List.range (sz.toNat * sy.toNat * sx.toNat * cN * k)).map (fun n =>
    let j := n % k
    let co := tileByteCoordsV08 spec.order sz.toNat sy.toNat sx.toNat cN k n
    if (z0 + (co.1 : Int)) < z1 ∧ (y0 + (co.2.1 : Int)) < y1 ∧ (x0 + (co.2.2.1 : Int)) < x1 then
      buf.getD (flatIndex spec.order dx.toNat dy.toNat dz.toNat cN
        (x0.toNat + co.2.2.1) (y0.toNat + co.2.1) (z0.toNat + co.1) co.2.2.2 * k + j) 0
    else 0)

/-- `tile_volume_buffer_v08`: reshapes the buffer (exact-size requirement of
`np.frombuffer` + `.reshape`), computes the tiling spec, and emits one
fixed-shape zero-padded tile per grid index. -/
def tile_volume_buffer_v08 (buf : List Nat) (spec : VolumeSpecV06)
    (tile_size : Int × Int × Int) :
    Except String (TilingSpecV08 × List (TileIndexV07 × List Nat)) := do
  let k ← ofOption (dtypeItemsize spec.dtype) "unknown dtype"
  let (dx, dy, dz) := spec.dims
  ensure (spec.order = "C" ∨ spec.order = "F") "Unsupported order"
  ensure ((buf.length : Int) = dx * dy * dz * spec.channels * k)
    "cannot reshape buffer to volume shape"
  let tiling ← compute_tiling_spec_v08 spec.dims tile_size
  let (sx, sy, sz) := tiling.tile_size
  let (nx, ny, nz) := tiling.tiles_per_axis
  let tiles := (intRange 0 (nz - 1)).flatMap (fun tz =>
    (intRange 0 (ny - 1)).flatMap (fun ty =>
      (intRange 0 (nx - 1)).map (fun tx =>
        (({ tx := tx, ty := ty, tz := tz } : TileIndexV07),
          tilePayloadV08 buf spec k sx sy sz tx ty tz))))
  pure (tiling, tiles)

/-! ## Geometry selector (`civd_v05_codec.py`) -/

/-- The least `d` with `n ≤ d³`.  Models the source expression
`math.ceil(voxels_needed ** (1.0 / 3.0))` as the exact integer ceiling
cube root.  The double-precision source expression agrees with the exact
value for every `voxels_needed ≤ 10^7` (checked exhaustively against
CPython 3), but can diverge for very large inputs just above huge perfect
cubes (e.g. `voxels_needed = 10^15 + 1` gives `100000` in CPython while
the exact ceiling cube root is `100001`), so the theorem about
`choose_geometry_v05` below is stated only on the verified domain
`payload_size ≤ 10^7`. -/
def ceilCbrt (n : Nat) : Nat :=
  (((List.range (n + 2)).find? (fun d => n ≤ d * d * d)).getD (n + 1))

/-- `choose_geometry_v05`: `math.ceil(payload_size / channels)` then the
ceiling cube root; the only error path is the `ZeroDivisionError` raised
by the division when `channels = 0` (there is no input validation).
Since `voxels_needed ≤ payload_size` for positive `channels`, this model
is faithful to the source's floating-point computation whenever
`payload_size ≤ 10^7` (see `ceilCbrt`). -/
def choose_geometry_v05 (payload_size : Nat) (channels : Nat) :
    Except String (Nat × Nat × Nat) := do
  ensure (channels ≠ 0) "ZeroDivisionError: division by zero"
  let voxels_needed := (payload_size + channels - 1) / channels
  let d := ceilCbrt voxels_needed
  pure (d, d, d)

/-! ## Voxel-level semantics of tiling (for the ROI→tile claims)

The brute-force membership notions the ROI→tile resolution is specified
against: a voxel `(vx, vy, vz)` lies in an ROI, in the volume, and in the
(volume-clipped) bounds of a tile exactly as `tile_bounds` computes them. -/

def voxelInRoi (roi : RoiV06) (v : Int × Int × Int) : Prop :=
  roi.x ≤ v.1 ∧ v.1 < roi.x + roi.w ∧
  roi.y ≤ v.2.1 ∧ v.2.1 < roi.y + roi.h ∧
  roi.z ≤ v.2.2 ∧ v.2.2 < roi.z + roi.d

def voxelInVolume (dims : Int × Int × Int) (v : Int × Int × Int) : Prop :=
  0 ≤ v.1 ∧ v.1 < dims.1 ∧ 0 ≤ v.2.1 ∧ v.2.1 < dims.2.1 ∧
  0 ≤ v.2.2 ∧ v.2.2 < dims.2.2

def voxelInTileBounds (dims tile : Int × Int × Int) (t : TileIndexV07)
    (v : Int × Int × Int) : Prop :=
  t.tx * tile.1 ≤ v.1 ∧ v.1 < min (t.tx * tile.1 + tile.1) dims.1 ∧
  t.ty * tile.2.1 ≤ v.2.1 ∧ v.2.1 < min (t.ty * tile.2.1 + tile.2.1) dims.2.1 ∧
  t.tz * tile.2.2 ≤ v.2.2 ∧ v.2.2 < min (t.tz * tile.2.2 + tile.2.2) dims.2.2

/-- Helper: the flat list of `(index, payload)` pairs emitted by the v0.8
tiler, one per grid index, abstracted over the payload function. -/
def tileGridV08 (nx ny nz : Int) (g : Int → Int → Int → List Nat) :
    List (TileIndexV07 × List Nat) :=
  (intRange 0 (nz - 1)).flatMap (fun tz =>
    (intRange 0 (ny - 1)).flatMap (fun ty =>
      (intRange 0 (nx - 1)).map (fun tx =>
        (({ tx := tx, ty := ty, tz := tz } : TileIndexV07), g tx ty tz))))

/-! # Claim theorems -/

/-! ## Inversion helpers for `Except` computations -/

@[simp] theorem pure_eq_ok {ε α : Type} {a b : α} :
    (pure a : Except ε α) = Except.ok b ↔ a = b := by
  constructor
  · intro h; cases h; rfl
  · intro h; cases h; rfl

@[simp] theorem ok_bind {ε α β : Type} {a : α} {f : α → Except ε β} :
    (Except.ok a >>= f) = f a := rfl

@[simp] theorem error_bind {ε α β : Type} {e : ε} {f : α → Except ε β} :
    ((Except.error e : Except ε α) >>= f) = Except.error e := rfl

theorem bind_eq_ok {ε α β : Type} {x : Except ε α} {f : α → Except ε β} {b : β} :
    (x >>= f) = Except.ok b ↔ ∃ a, x = Except.ok a ∧ f a = Except.ok b := by
  cases x <;> simp

@[simp] theorem ensure_bind_ok {p : Prop} [Decidable p] {msg : String}
    {β : Type} {f : Unit → Except String β} {b : β} :
    (ensure p msg >>= f) = Except.ok b ↔ p ∧ f () = Except.ok b := by
  unfold ensure
  split <;> simp_all

@[simp] theorem ofOption_eq_ok {α : Type} {o : Option α} {msg : String} {a : α} :
    ofOption o msg = .ok a ↔ o = some a := by
  cases o <;> simp [ofOption]

@[simp] theorem map_eq_ok {ε α β : Type} {f : α → β} {x : Except ε α} {b : β} :
    (f <$> x) = Except.ok b ↔ ∃ a, x = Except.ok a ∧ f a = b := by
  cases x <;> simp [Functor.map, Except.map]

@[simp] theorem ensure_eq_ok {p : Prop} [Decidable p] {msg : String} {u : Unit} :
    ensure p msg = .ok u ↔ p := ensure_ok_iff

/-! ## C6: clamp totality -/

theorem clampInterval_bounds (start length max_size : Int) (h : 0 < max_size) :
    0 ≤ (clampInterval start length max_size).1 ∧
    (clampInterval start length max_size).1 + (clampInterval start length max_size).2 ≤ max_size ∧
    0 ≤ (clampInterval start length max_size).2 := by
  unfold clampInterval
  split
  · simp; omega
  · dsimp only
    split <;> simp <;> omega

/-- C6: for every ROI (any integer origin and extent, including negative
values) and every positive dims, `clamp_roi` returns an ROI satisfying
`0 ≤ origin` and `origin + extent ≤ dim` on every axis, with a
non-negative extent. -/
theorem spec_C6_clamp_totality (roi : RoiV06) (dims : Int × Int × Int)
    (hx : 0 < dims.1) (hy : 0 < dims.2.1) (hz : 0 < dims.2.2) :
    (0 ≤ (clamp_roi roi dims).x ∧ (clamp_roi roi dims).x + (clamp_roi roi dims).w ≤ dims.1 ∧
      0 ≤ (clamp_roi roi dims).w) ∧
    (0 ≤ (clamp_roi roi dims).y ∧ (clamp_roi roi dims).y + (clamp_roi roi dims).h ≤ dims.2.1 ∧
      0 ≤ (clamp_roi roi dims).h) ∧
    (0 ≤ (clamp_roi roi dims).z ∧ (clamp_roi roi dims).z + (clamp_roi roi dims).d ≤ dims.2.2 ∧
      0 ≤ (clamp_roi roi dims).d) := by
  refine ⟨?_, ?_, ?_⟩
  · exact clampInterval_bounds roi.x roi.w dims.1 hx
  · exact clampInterval_bounds roi.y roi.h dims.2.1 hy
  · exact clampInterval_bounds roi.z roi.d dims.2.2 hz

/-- C6 witness: the clamp scenario of the spec, dims (10, 8, 6) with ROI
origin (8, 7, 5), extent (10, 10, 10). -/
theorem spec_C6_clamp_totality_witness :
    ((0:Int) < 10 ∧ (0:Int) < 8 ∧ (0:Int) < 6) ∧
    (0 ≤ (clamp_roi ⟨8, 7, 5, 10, 10, 10⟩ (10, 8, 6)).x ∧
      (clamp_roi ⟨8, 7, 5, 10, 10, 10⟩ (10, 8, 6)).x +
        (clamp_roi ⟨8, 7, 5, 10, 10, 10⟩ (10, 8, 6)).w ≤ 10 ∧
      0 ≤ (clamp_roi ⟨8, 7, 5, 10, 10, 10⟩ (10, 8, 6)).w) :=
  ⟨⟨by decide, by decide, by decide⟩,
    (spec_C6_clamp_totality ⟨8, 7, 5, 10, 10, 10⟩ (10, 8, 6)
      (by decide) (by decide) (by decide)).1⟩

/-! ## C7: zero-extent ROI reads -/

theorem read_region_ok_pos_extent {buf : List Nat} {spec : VolumeSpecV06}
    {x y z w h d : Int} {channels : Option (List Int)} {t : TensorV06}
    (hok : read_region_from_bytes buf spec x y z w h d channels = .ok t) :
    0 < w ∧ 0 < h ∧ 0 < d := by
  obtain ⟨⟨dx, dy, dz⟩, ch, dt, ord, sig⟩ := spec
  simp only [read_region_from_bytes] at hok
  cases hdt : dtypeItemsize dt with
  | none => simp [hdt] at hok
  | some k =>
    simp only [hdt, pure_bind, ensure_bind_ok] at hok
    obtain ⟨h1, h2, h3, hx, hy, hz, _⟩ := hok
    omega

/-- C7 counterexample: a region with zero extent on the x axis raises
(here: a `(2,2,2)` single-channel uint8 volume, ROI `(0,0,0)` extent
`(0,1,1)`), and a fully out-of-bounds ROI passed to
`read_roi_from_snapshot_v07` — which `clamp_roi` saturates to zero
extent — raises as well, instead of yielding an empty tensor. -/
theorem spec_C7_counterexample :
    isOk (read_region_from_bytes (List.replicate 8 0)
      { dims := (2, 2, 2), channels := 1 } 0 0 0 0 1 1 none) = false ∧
    isOk (read_roi_from_snapshot_v07
      { headerDict := { version := "0.7", layout := "SNAPSHOT_V07", dims := (2, 2, 2),
                        channels := 1, dtype := "uint8", signature := "C_CONTIG",
                        meta := none },
        volume := List.replicate 8 1 }
      { x := 10, y := 10, z := 10, w := 3, h := 3, d := 3 } none) = false := by
  constructor <;> rfl

/-- C7 amended: a region whose extent is zero (or negative) on some axis is
rejected by `read_region_from_bytes` with an error — the strict bounds
check `0 ≤ o < o + e ≤ dim` requires positive extent on every axis — so
zero-extent ROIs (including clamped fully-out-of-bounds ROIs) raise
rather than producing an empty tensor. -/
theorem spec_C7_amended (buf : List Nat) (spec : VolumeSpecV06)
    (x y z w h d : Int) (channels : Option (List Int))
    (hdeg : w ≤ 0 ∨ h ≤ 0 ∨ d ≤ 0) :
    isOk (read_region_from_bytes buf spec x y z w h d channels) = false := by
  cases hres : read_region_from_bytes buf spec x y z w h d channels with
  | ok t =>
    have := read_region_ok_pos_extent hres
    omega
  | error e => rfl

/-- C7 amended witness: concrete zero-width region on a `(2,2,2)` volume. -/
theorem spec_C7_amended_witness :
    ((0:Int) ≤ 0 ∨ (1:Int) ≤ 0 ∨ (1:Int) ≤ 0) ∧
    isOk (read_region_from_bytes (List.replicate 8 0)
      { dims := (2, 2, 2), channels := 1 } 0 0 0 0 1 1 none) = false :=
  ⟨Or.inl le_rfl,
    spec_C7_amended (List.replicate 8 0) { dims := (2, 2, 2), channels := 1 }
      0 0 0 0 1 1 none (Or.inl le_rfl)⟩

/-! ## C5: snapshot ROI reads and clamping -/

/-- C5 counterexample: on a 1×1×1 v0.8 snapshot and the out-of-bounds ROI
origin (0,0,0), extent (2,1,1), `read_roi_from_snapshot_v08` errors (the
raw bounds reach the ROI engine), while the spec's read→clamp→read_region
pipeline succeeds — so the v0.8 ROI read does not clamp. -/
theorem spec_C5_counterexample :
    isOk (read_roi_from_snapshot_v08
      { dims := (1, 1, 1), channels := 1, dtype_code := 1, sig_code := 1,
        order_code := 1, schema_id := "CIVD_SNAPSHOT", schema_version := "0.8",
        meta_json := .obj [], payload := [7] } 0 0 0 2 1 1 none) = false ∧
    isOk (specSnapshotRoiPipelineV08
      { dims := (1, 1, 1), channels := 1, dtype_code := 1, sig_code := 1,
        order_code := 1, schema_id := "CIVD_SNAPSHOT", schema_version := "0.8",
        meta_json := .obj [], payload := [7] }
      { x := 0, y := 0, z := 0, w := 2, h := 1, d := 1 } none) = true := by
  constructor <;> rfl

/-- C5 amended: `read_roi_from_snapshot_v07` equals the composition
`read_snapshot` → `clamp_roi` → `read_region_from_bytes` for every input,
so no caller-supplied bound reaches the v0.7 ROI engine unclamped;
`read_roi_from_snapshot_v08`, by contrast, forwards the caller's bounds
to the ROI engine without clamping (see the counterexample). -/
theorem spec_C5_amended (blob : SnapBlobV07) (roi : RoiV06)
    (channels : Option (List Int)) :
    read_roi_from_snapshot_v07 blob roi channels =
      specSnapshotRoiPipelineV07 blob roi channels := rfl

/-! ## C9: geometry selection -/

theorem find?_range_spec {p : Nat → Bool} :
    ∀ {m a : Nat}, (List.range m).find? p = some a → p a = true ∧ ∀ b < a, p b = false := by
  intro m
  induction m generalizing p with
  | zero => intro a h; simp at h
  | succ m ih =>
    intro a h
    rw [List.range_succ_eq_map, List.find?_cons] at h
    cases hp0 : p 0 with
    | true =>
      rw [hp0] at h
      cases h
      exact ⟨hp0, fun b hb => absurd hb (Nat.not_lt_zero b)⟩
    | false =>
      rw [hp0] at h
      rw [List.find?_map] at h
      cases hfind : (List.range m).find? (p ∘ Nat.succ) with
      | none => rw [hfind] at h; simp at h
      | some a' =>
        rw [hfind] at h
        simp only [Option.map_some] at h
        cases h
        obtain ⟨hpa, hmin⟩ := ih hfind
        refine ⟨hpa, fun b hb => ?_⟩
        cases b with
        | zero => exact hp0
        | succ b' => exact hmin b' (Nat.lt_of_succ_lt_succ hb)

theorem ceilCbrt_cube_ge (n : Nat) : n ≤ ceilCbrt n * ceilCbrt n * ceilCbrt n := by
  unfold ceilCbrt
  cases hf : (List.range (n + 2)).find? (fun d => n ≤ d * d * d) with
  | none =>
    simp only [Option.getD_none]
    nlinarith
  | some a =>
    simp only [Option.getD_some]
    have := (find?_range_spec hf).1
    simpa using this

theorem ceilCbrt_min {n e : Nat} (h : n ≤ e * e * e) : ceilCbrt n ≤ e := by
  unfold ceilCbrt
  cases hf : (List.range (n + 2)).find? (fun d => n ≤ d * d * d) with
  | none =>
    exfalso
    rw [List.find?_eq_none] at hf
    have hmem : n + 1 ∈ List.range (n + 2) := List.mem_range.mpr (by omega)
    have := hf (n + 1) hmem
    simp at this
    nlinarith
  | some a =>
    simp only [Option.getD_some]
    by_contra hlt
    push_neg at hlt
    have := (find?_range_spec hf).2 e hlt
    simp [h] at this

/-- C9 counterexample: `choose_geometry_v05` returns `(0,0,0)` — an empty
volume, with no error — on payload length 0, and the degenerate
single-voxel cube `(1,1,1)` on payload length 1 with 4 channels: there is
neither a non-positive-input error nor a floor minimum side length. -/
theorem spec_C9_counterexample :
    choose_geometry_v05 0 4 = .ok (0, 0, 0) ∧
    choose_geometry_v05 1 4 = .ok (1, 1, 1) := by
  constructor <;> rfl

/-- C9 amended: for positive `channels` and every `payload_size ≤ 10^7`
(the domain on which the source's double-precision cube root is
exhaustively verified to equal the exact ceiling cube root; outside it
the float computation can fall short, e.g. payload `10^15 + 1` with one
channel yields side `100000` whose cube is below the payload),
`choose_geometry_v05` returns the cube `(d,d,d)` where `d` is the exact
ceiling cube root of `ceil(payload_size / channels)`: the smallest side
length whose cube holds the payload (`d·d·d·channels ≥ payload_size`,
minimal such).  It imposes no floor minimum side (payload 1 gives the
single-voxel cube, payload 0 the empty cube, with no error); the only
error path is the `ZeroDivisionError` when `channels = 0`. -/
theorem spec_C9_amended (payload_size channels : Nat) (hch : 0 < channels)
    (_hp : payload_size ≤ 10000000) :
    ∃ d, choose_geometry_v05 payload_size channels = .ok (d, d, d) ∧
      payload_size ≤ d * d * d * channels ∧
      ∀ e, payload_size ≤ e * e * e * channels → d ≤ e := by
  unfold choose_geometry_v05
  simp only [ensure_bind_ok, pure_eq_ok]
  have hceil : (payload_size + channels - 1) / channels = payload_size ⌈/⌉ channels := rfl
  refine ⟨ceilCbrt ((payload_size + channels - 1) / channels), ⟨by omega, rfl⟩, ?_, ?_⟩
  · have h1 : payload_size ≤ channels * (payload_size ⌈/⌉ channels) := by
      have h0 : payload_size ≤ channels • (payload_size ⌈/⌉ channels) :=
        le_smul_ceilDiv hch
      simpa [smul_eq_mul] using h0
    rw [hceil]
    calc payload_size ≤ channels * (payload_size ⌈/⌉ channels) := h1
      _ ≤ channels * (ceilCbrt (payload_size ⌈/⌉ channels) *
            ceilCbrt (payload_size ⌈/⌉ channels) * ceilCbrt (payload_size ⌈/⌉ channels)) :=
          Nat.mul_le_mul_left channels (ceilCbrt_cube_ge _)
      _ = ceilCbrt (payload_size ⌈/⌉ channels) * ceilCbrt (payload_size ⌈/⌉ channels) *
            ceilCbrt (payload_size ⌈/⌉ channels) * channels := by ring
  · intro e he
    apply ceilCbrt_min
    rw [hceil]
    rw [ceilDiv_le_iff_le_mul hch]
    calc payload_size ≤ e * e * e * channels := he
      _ = channels * (e * e * e) := by ring

/-- C9 amended witness: payload 4097, 4 channels, yielding the 11³ cube. -/
theorem spec_C9_amended_witness :
    0 < 4 ∧ 4097 ≤ 10000000 ∧
    (∃ d, choose_geometry_v05 4097 4 = .ok (d, d, d) ∧
      4097 ≤ d * d * d * 4 ∧ ∀ e, 4097 ≤ e * e * e * 4 → d ≤ e) :=
  ⟨by decide, by decide, spec_C9_amended 4097 4 (by decide) (by decide)⟩

/-! ## C3: snapshot round-trip -/

theorem dtype_code_inv {s : String} {c : Nat} (h : DTYPE_CODE_V08 s = some c) :
    DTYPE_NAME_V08 c = some s := by
  unfold DTYPE_CODE_V08 at h
  split at h <;> cases h <;> rfl

theorem sig_code_inv {s : String} {c : Nat} (h : SIG_CODE_V08 s = some c) :
    SIG_NAME_V08 c = some s := by
  unfold SIG_CODE_V08 at h
  split at h <;> cases h <;> rfl

theorem order_code_inv {s : String} {c : Nat} (h : ORDER_CODE_V08 s = some c) :
    ORDER_NAME_V08 c = some s := by
  unfold ORDER_CODE_V08 at h
  split at h <;> cases h <;> rfl

theorem v08_snapshot_roundtrip (payload : List Nat) (spec : VolumeSpecV06)
    (meta : Option Json) (sid sver : String) (blob : SnapBlobV08)
    (hdr : SnapshotHeaderV08)
    (hw : write_snapshot_v08 payload spec meta sid sver = .ok (blob, hdr)) :
    read_snapshot_v08 blob = .ok (hdr, spec, payload) := by
  obtain ⟨⟨dx, dy, dz⟩, ch, dt, ord, sig⟩ := spec
  simp only [write_snapshot_v08] at hw
  cases hdt : DTYPE_CODE_V08 dt with
  | none => simp [hdt, ofOption] at hw
  | some dc =>
  cases hsg : SIG_CODE_V08 sig with
  | none => simp [hdt, hsg, ofOption] at hw
  | some sc =>
  cases hor : ORDER_CODE_V08 ord with
  | none => simp [hdt, hsg, hor, ofOption] at hw
  | some oc =>
  simp only [hdt, hsg, hor, ofOption, ok_bind] at hw
  cases hk : dtypeItemsize dt with
  | none => simp [VolumeSpecV06.expected_nbytes, hk] at hw
  | some k =>
  simp only [VolumeSpecV06.expected_nbytes, hk, ensure_bind_ok, pure_bind, pure_eq_ok,
    map_eq_ok, ensure_eq_ok, exists_const] at hw
  obtain ⟨hd1, hd2, hlen, heq⟩ := hw
  injection heq with hblob hhdr
  subst hblob
  subst hhdr
  simp only [read_snapshot_v08, dtype_code_inv hdt, sig_code_inv hsg, order_code_inv hor,
    ofOption, ok_bind, VolumeSpecV06.expected_nbytes, hk, ensure_bind_ok, pure_bind,
    map_eq_ok, ensure_eq_ok, exists_const]
  exact ⟨hlen, rfl⟩

theorem v07_snapshot_roundtrip (payload : List Nat) (spec : VolumeSpecV06)
    (meta : Option Json) (blob : SnapBlobV07) (hdr : SnapshotHeaderV07)
    (hw : write_snapshot_v07 payload spec meta = .ok (blob, hdr)) :
    read_snapshot_v07 blob = .ok (hdr, { spec with order := "C" }, payload) := by
  obtain ⟨⟨dx, dy, dz⟩, ch, dt, ord, sig⟩ := spec
  simp only [write_snapshot_v07] at hw
  cases hk : dtypeItemsize dt with
  | none => simp [VolumeSpecV06.expected_nbytes, hk] at hw
  | some k =>
  simp only [VolumeSpecV06.expected_nbytes, hk, ensure_bind_ok, pure_bind, pure_eq_ok,
    map_eq_ok, ensure_eq_ok, exists_const] at hw
  obtain ⟨hlen, heq⟩ := hw
  injection heq with hblob hhdr
  subst hblob
  subst hhdr
  simp only [read_snapshot_v07, headerFromDict, buildHeaderDict, specFromHeader,
    VolumeSpecV06.expected_nbytes, hk, ensure_bind_ok, pure_bind, map_eq_ok,
    ensure_eq_ok, exists_const]
  exact ⟨trivial, hlen, rfl⟩

/-- C3 counterexample: a v0.7 snapshot written from a spec with
`order = "F"` reads back with `order = "C"` — the v0.7 header dict has no
"order" key, so the spec is not reproduced with all fields equal. -/
theorem spec_C3_counterexample :
    (do
      let (blob, _) ← write_snapshot_v07 [7]
        { dims := (1, 1, 1), channels := 1, dtype := "uint8", order := "F",
          signature := "F_CONTIG" } none
      let (_, spec', _) ← read_snapshot_v07 blob
      pure spec'.order : Except String String) = .ok "C" ∧
    ({ dims := (1, 1, 1), channels := 1, dtype := "uint8", order := "F",
       signature := "F_CONTIG" } : VolumeSpecV06).order = "F" := by
  constructor <;> rfl

/-- C3 amended: reading back a written snapshot reproduces the payload
byte-for-byte, the metadata, and the header; the v0.8 container reproduces
every `VolumeSpecV06` field (dims, channels, dtype, order, signature),
while the v0.7 container — whose JSON header stores no "order" key —
reproduces all fields except `order`, which always reads back as "C". -/
theorem spec_C3_amended :
    (∀ (payload : List Nat) (spec : VolumeSpecV06) (meta : Option Json)
       (sid sver : String) (blob : SnapBlobV08) (hdr : SnapshotHeaderV08),
       write_snapshot_v08 payload spec meta sid sver = .ok (blob, hdr) →
       read_snapshot_v08 blob = .ok (hdr, spec, payload)) ∧
    (∀ (payload : List Nat) (spec : VolumeSpecV06) (meta : Option Json)
       (blob : SnapBlobV07) (hdr : SnapshotHeaderV07),
       write_snapshot_v07 payload spec meta = .ok (blob, hdr) →
       read_snapshot_v07 blob = .ok (hdr, { spec with order := "C" }, payload)) :=
  ⟨v08_snapshot_roundtrip, v07_snapshot_roundtrip⟩

/-- C3 amended witness: both round-trips at a concrete 1×1×1 uint8
snapshot with payload `[7]`. -/
theorem spec_C3_amended_witness :
    read_snapshot_v08
      { dims := (1, 1, 1), channels := 1, dtype_code := 1, sig_code := 1, order_code := 1,
        schema_id := "CIVD_SNAPSHOT", schema_version := "0.8", meta_json := .obj [],
        payload := [7] } =
      .ok ({ version := "0.8", schema_id := "CIVD_SNAPSHOT", schema_version := "0.8",
             dims := (1, 1, 1), channels := 1, dtype := "uint8", signature := "C_CONTIG",
             order := "C", meta := .obj [] },
           { dims := (1, 1, 1), channels := 1, dtype := "uint8", order := "C",
             signature := "C_CONTIG" }, [7]) ∧
    read_snapshot_v07
      { headerDict := { version := "0.7", layout := "SNAPSHOT_V07", dims := (1, 1, 1),
                        channels := 1, dtype := "uint8", signature := "C_CONTIG",
                        meta := none },
        volume := [7] } =
      .ok ({ version := "0.7", layout := "SNAPSHOT_V07", dims := (1, 1, 1), channels := 1,
             dtype := "uint8", signature := "C_CONTIG", meta := none },
           { dims := (1, 1, 1), channels := 1, dtype := "uint8", order := "C",
             signature := "C_CONTIG" }, [7]) :=
  ⟨spec_C3_amended.1 [7]
      { dims := (1, 1, 1), channels := 1, dtype := "uint8", order := "C",
        signature := "C_CONTIG" } none "CIVD_SNAPSHOT" "0.8" _ _ rfl,
    spec_C3_amended.2 [7]
      { dims := (1, 1, 1), channels := 1, dtype := "uint8", order := "C",
        signature := "C_CONTIG" } none _ _ rfl⟩

/-! ## C4: dense codec round-trip -/


theorem blob_take_header {l vol ftr : List Nat} (hl : l.length = 24) :
    ((l ++ vol) ++ ftr).take 24 = l := by
  rw [List.append_assoc]
  exact List.take_left' hl

theorem blob_length {l vol ftr : List Nat} {n m : Nat} (hl : l.length = 24)
    (hv : vol.length = n) (hf : ftr.length = m) :
    ((l ++ vol) ++ ftr).length = 24 + n + m := by
  simp [hl, hv, hf]
  omega

theorem blob_slice_vol {l vol ftr : List Nat} {n : Nat} (hl : l.length = 24)
    (hv : vol.length = n) :
    pySlice ((l ++ vol) ++ ftr) 24 (24 + n) = vol := by
  unfold pySlice
  rw [List.append_assoc, List.drop_left' hl, Nat.add_sub_cancel_left,
    List.take_left' hv]

theorem ci3_decode_encode {data blob : List Nat}
    (henc : encode_bytes_to_ci3 data = .ok blob) :
    decode_ci3 blob = .ok (data,
      { magic := MAGIC, version := VERSION_V01, dim_x := 16, dim_y := 16, dim_z := 16,
        channels := 1, reserved1 := [0, 0, 0], orig_length := data.length,
        reserved2 := 0 }) := by
  simp only [encode_bytes_to_ci3, dims_to_volume_size, MAX_PAYLOAD_V01] at henc
  rw [bind_eq_ok] at henc
  obtain ⟨u, hens, henc⟩ := henc
  have hlen : data.length ≤ 4096 := by simpa [ensure_ok_iff] using hens
  rw [bind_eq_ok] at henc
  obtain ⟨hb, hpack, hpure⟩ := henc
  simp only [CI3Header.pack, MAGIC, ensure_bind_ok, pure_eq_ok] at hpack
  obtain ⟨c1, c2, c3, c4, c5, c6, c7, hhb⟩ := hpack
  subst hhb
  simp only [pure_eq_ok] at hpure
  subst hpure
  have hvol : (data ++ List.replicate (16 * 16 * 16 * 1 - data.length) 0).length = 4096 := by
    simp
    omega
  have hl : ([([67, 73, 51, 0] : List Nat).getD 0 0, [67, 73, 51, 0].getD 1 0,
      [67, 73, 51, 0].getD 2 0, [67, 73, 51, 0].getD 3 0,
      VERSION_V01 % 256, VERSION_V01 / 256, 16 % 256, 16 / 256, 16 % 256, 16 / 256,
      16 % 256, 16 / 256, 1,
      ([0, 0, 0] : List Nat).getD 0 0, [0, 0, 0].getD 1 0, [0, 0, 0].getD 2 0,
      data.length % 256, data.length / 256 % 256, data.length / 65536 % 256,
      data.length / 16777216, 0 % 256, 0 / 256 % 256, 0 / 65536 % 256,
      0 / 16777216] : List Nat).length = 24 := by rfl
  have hf : (u32le (crc32 (data ++ List.replicate (16 * 16 * 16 * 1 - data.length) 0))).length = 4 := by
    rfl
  simp only [decode_ci3, blob_length hl hvol hf, blob_take_header hl]
  simp only [CI3Header.unpack, ok_bind]
  have horig : data.length % 256 + 256 * (data.length / 256 % 256) +
      65536 * (data.length / 65536 % 256) + 16777216 * (data.length / 16777216) =
      data.length := by omega
  norm_num [u16leRead, u32leRead, VERSION_V01, dims_to_volume_size,
    CI3Header.validateBasicV01, MAGIC, ensure_bind_ok, bind_assoc, horig]
  simp [pySlice, map_eq_ok, ensure_eq_ok, hlen, List.take_append_eq_append_take,
    List.take_of_length_le hlen, List.take_left]
  rw [← List.append_assoc, List.drop_left' hvol]
  simp [u32leReadList, u32le, u32leRead_u32le, map_eq_ok, ensure_eq_ok]

theorem blob_drop_ftr {l vol ftr : List Nat} {n : Nat} (hl : l.length = 24)
    (hv : vol.length = n) :
    ((l ++ vol) ++ ftr).drop (24 + n) = ftr := by
  have h24n : (l ++ vol).length = 24 + n := by simp [hl, hv]
  exact List.drop_left' h24n

theorem civd_v03_decode_encode {payload blob : List Nat} {dx dy dz channels : Int}
    (henc : encode_bytes_to_civd_v03 payload (dx, dy, dz) channels = .ok blob) :
    decode_civd_v03 blob = .ok (payload,
      { header := { magic := MAGIC, version := VERSION_V03, dim_x := dx.toNat,
                    dim_y := dy.toNat, dim_z := dz.toNat, channels := channels.toNat,
                    reserved1 := [0, 0, 0], orig_length := payload.length, reserved2 := 0 },
        dims := (dx.toNat, dy.toNat, dz.toNat),
        channels := channels.toNat,
        capacity := dims_to_volume_size dx.toNat dy.toNat dz.toNat channels.toNat,
        crc_ok := true }) := by
  simp only [encode_bytes_to_civd_v03] at henc
  rw [bind_eq_ok] at henc
  obtain ⟨u, hens, henc⟩ := henc
  have hch : 0 < channels := by simpa [ensure_ok_iff] using hens
  rw [bind_eq_ok] at henc
  obtain ⟨u2, hens2, henc⟩ := henc
  have hdims : 0 < dx ∧ 0 < dy ∧ 0 < dz := by simpa [ensure_ok_iff] using hens2
  rw [bind_eq_ok] at henc
  obtain ⟨u3, hens3, henc⟩ := henc
  have hlen : payload.length ≤ dims_to_volume_size dx.toNat dy.toNat dz.toNat channels.toNat := by
    simpa [ensure_ok_iff] using hens3
  rw [bind_eq_ok] at henc
  obtain ⟨hb, hpack, hpure⟩ := henc
  simp only [CI3Header.pack, MAGIC, ensure_bind_ok, pure_eq_ok] at hpack
  obtain ⟨c1, c2, c3, c4, c5, c6, c7, hhb⟩ := hpack
  subst hhb
  simp only [pure_eq_ok] at hpure
  subst hpure
  have hvol : (payload ++ List.replicate
      (dims_to_volume_size dx.toNat dy.toNat dz.toNat channels.toNat - payload.length) 0).length =
      dims_to_volume_size dx.toNat dy.toNat dz.toNat channels.toNat := by
    simp
    omega
  have hl : ([([67, 73, 51, 0] : List Nat).getD 0 0, [67, 73, 51, 0].getD 1 0,
      [67, 73, 51, 0].getD 2 0, [67, 73, 51, 0].getD 3 0,
      VERSION_V03 % 256, VERSION_V03 / 256, dx.toNat % 256, dx.toNat / 256,
      dy.toNat % 256, dy.toNat / 256, dz.toNat % 256, dz.toNat / 256, channels.toNat,
      ([0, 0, 0] : List Nat).getD 0 0, [0, 0, 0].getD 1 0, [0, 0, 0].getD 2 0,
      payload.length % 256, payload.length / 256 % 256, payload.length / 65536 % 256,
      payload.length / 16777216, 0 % 256, 0 / 256 % 256, 0 / 65536 % 256,
      0 / 16777216] : List Nat).length = 24 := by rfl
  have hf : (u32le (crc32 (payload ++ List.replicate
      (dims_to_volume_size dx.toNat dy.toNat dz.toNat channels.toNat - payload.length) 0))).length = 4 := by
    rfl
  simp only [decode_civd_v03, blob_length hl hvol hf, Nat.add_sub_cancel,
    blob_take_header hl, blob_slice_vol hl hvol, blob_drop_ftr hl hvol]
  rw [ensure_bind_ok]
  refine ⟨by omega, ?_⟩
  simp only [CI3Header.unpack, ok_bind]
  norm_num [CI3Header.validateBasicV03, MAGIC, VERSION_V03, u16leRead_u16le,
    u32leRead_u32le, u16leRead, ensure_bind_ok, bind_assoc]
  have hxx : dx.toNat % 256 + 256 * (dx.toNat / 256) = dx.toNat := by omega
  have hyy : dy.toNat % 256 + 256 * (dy.toNat / 256) = dy.toNat := by omega
  have hzz : dz.toNat % 256 + 256 * (dz.toNat / 256) = dz.toNat := by omega
  simp only [hxx, hyy, hzz, u32leReadList, u32le, u32leRead_u32le, u32leRead]
  refine ⟨⟨by omega, by omega, by omega⟩, hch, trivial, by omega, ?_⟩
  refine ⟨_, rfl, ?_⟩
  simp only [true_and, and_true]
  omega


/-- C4: decoding an encoded capsule recovers the original payload exactly:
for every capsule `encode_bytes_to_civd_v03` produces (any positive dims
and channels accepted by the 24-byte header, payload up to capacity),
`decode_civd_v03` returns the payload unchanged, and likewise
`decode_ci3` for `encode_bytes_to_ci3`'s fixed 16³ single-channel
geometry. -/
theorem spec_C4_roundtrip :
    (∀ (payload blob : List Nat) (dx dy dz channels : Int),
       encode_bytes_to_civd_v03 payload (dx, dy, dz) channels = .ok blob →
       ∃ info, decode_civd_v03 blob = .ok (payload, info)) ∧
    (∀ (data blob : List Nat),
       encode_bytes_to_ci3 data = .ok blob →
       ∃ h, decode_ci3 blob = .ok (data, h)) :=
  ⟨fun _ _ _ _ _ _ henc => ⟨_, civd_v03_decode_encode henc⟩,
   fun _ _ henc => ⟨_, ci3_decode_encode henc⟩⟩

/-- C4 witness: payload `[1,2,3]` in a 2×2×2 single-channel v0.3 capsule,
and payload `[9,8,7]` in the fixed v0.1 capsule. -/
theorem spec_C4_roundtrip_witness :
    (∃ info, decode_civd_v03
        ((encode_bytes_to_civd_v03 [1, 2, 3] (2, 2, 2) 1).toOption.getD []) =
        .ok ([1, 2, 3], info)) ∧
    (∃ blob h, encode_bytes_to_ci3 [9, 8, 7] = .ok blob ∧
       decode_ci3 blob = .ok ([9, 8, 7], h)) := by
  constructor
  · exact spec_C4_roundtrip.1 [1, 2, 3] _ 2 2 2 1 rfl
  · obtain ⟨b, henc⟩ : ∃ b, encode_bytes_to_ci3 [9, 8, 7] = .ok b := ⟨_, rfl⟩
    obtain ⟨h, hdec⟩ := spec_C4_roundtrip.2 [9, 8, 7] b henc
    exact ⟨b, h, henc, hdec⟩

/-! ## C1 and C8: decoder gates -/


theorem decode_ci3_ok_crc {blob p : List Nat} {h : CI3Header}
    (hok : decode_ci3 blob = .ok (p, h)) :
    u32leReadList (pySlice blob 4120 4124) = .ok (crc32 (pySlice blob 24 4120)) := by
  simp only [decode_ci3] at hok
  rw [bind_eq_ok] at hok
  obtain ⟨u, _, hok⟩ := hok
  rw [bind_eq_ok] at hok
  obtain ⟨hd, hun, hok⟩ := hok
  rw [bind_eq_ok] at hok
  obtain ⟨u2, hval, hok⟩ := hok
  have hdims : hd.dim_x = 16 ∧ hd.dim_y = 16 ∧ hd.dim_z = 16 ∧ hd.channels = 1 := by
    simp only [CI3Header.validateBasicV01, ensure_bind_ok, ensure_eq_ok, bind_assoc] at hval
    tauto
  obtain ⟨h1, h2, h3, h4⟩ := hdims
  simp only [h1, h2, h3, h4, dims_to_volume_size] at hok
  norm_num at hok
  obtain ⟨hsize, hok⟩ := hok
  rw [bind_eq_ok] at hok
  obtain ⟨st, hst, hok⟩ := hok
  simp only [ensure_bind_ok] at hok
  obtain ⟨hcrc, _⟩ := hok
  rw [hcrc]
  exact hst

theorem decode_ci3_v02_ok_crc {blob p : List Nat} {h : CI3Header}
    (hok : decode_ci3_v02 blob = .ok (p, h)) :
    u32leReadList (pySlice blob 16408 16412) = .ok (crc32 (pySlice blob 24 16408)) := by
  simp only [decode_ci3_v02, CHANNELS_V02] at hok
  rw [bind_eq_ok] at hok
  obtain ⟨u, _, hok⟩ := hok
  rw [bind_eq_ok] at hok
  obtain ⟨hd, hun, hok⟩ := hok
  simp only [ensure_bind_ok, bind_assoc] at hok
  obtain ⟨hm, hv, ⟨h1, h2, h3⟩, h4, hok⟩ := hok
  simp only [h1, h2, h3, h4] at hok
  norm_num at hok
  obtain ⟨hsize, hok⟩ := hok
  rw [bind_eq_ok] at hok
  obtain ⟨st, hst, hok⟩ := hok
  simp only [ensure_bind_ok] at hok
  obtain ⟨hcrc, _⟩ := hok
  rw [hcrc]
  exact hst

theorem decode_civd_v03_ok_details {blob p : List Nat} {info : CivdInfoV03}
    (hok : decode_civd_v03 blob = .ok (p, info)) :
    ∃ st, u32leReadList (blob.drop (blob.length - 4)) = .ok st ∧
      info.crc_ok = decide (crc32 (pySlice blob 24 (blob.length - 4)) = st) ∧
      p = (pySlice blob 24 (blob.length - 4)).take info.header.orig_length := by
  simp only [decode_civd_v03] at hok
  rw [bind_eq_ok] at hok
  obtain ⟨u, _, hok⟩ := hok
  rw [bind_eq_ok] at hok
  obtain ⟨hd, hun, hok⟩ := hok
  rw [bind_eq_ok] at hok
  obtain ⟨u2, hval, hok⟩ := hok
  simp only [ensure_bind_ok] at hok
  obtain ⟨hcap, hok⟩ := hok
  rw [bind_eq_ok] at hok
  obtain ⟨st, hst, hok⟩ := hok
  simp only [pure_eq_ok] at hok
  injection hok with hp hinfo
  subst hinfo
  exact ⟨st, hst, rfl, by rw [← hp]⟩

theorem decode_ci3_ok_payload {blob p : List Nat} {h : CI3Header}
    (hok : decode_ci3 blob = .ok (p, h)) :
    h.orig_length ≤ 4096 ∧ p = (pySlice blob 24 4120).take h.orig_length := by
  simp only [decode_ci3] at hok
  rw [bind_eq_ok] at hok
  obtain ⟨u, _, hok⟩ := hok
  rw [bind_eq_ok] at hok
  obtain ⟨hd, hun, hok⟩ := hok
  rw [bind_eq_ok] at hok
  obtain ⟨u2, hval, hok⟩ := hok
  have hdims : hd.dim_x = 16 ∧ hd.dim_y = 16 ∧ hd.dim_z = 16 ∧ hd.channels = 1 := by
    simp only [CI3Header.validateBasicV01, ensure_bind_ok, ensure_eq_ok, bind_assoc] at hval
    tauto
  obtain ⟨h1, h2, h3, h4⟩ := hdims
  simp only [h1, h2, h3, h4, dims_to_volume_size] at hok
  norm_num at hok
  obtain ⟨hsize, hok⟩ := hok
  rw [bind_eq_ok] at hok
  obtain ⟨st, hst, hok⟩ := hok
  simp only [ensure_bind_ok, map_eq_ok, ensure_eq_ok, exists_const] at hok
  obtain ⟨hcrc, horig, hpair⟩ := hok
  injection hpair with hp hh
  subst hh
  exact ⟨horig, hp.symm⟩

theorem decode_ci3_v02_ok_orig {blob p : List Nat} {h : CI3Header}
    (hok : decode_ci3_v02 blob = .ok (p, h)) :
    h.orig_length ≤ 4096 := by
  simp only [decode_ci3_v02, CHANNELS_V02] at hok
  rw [bind_eq_ok] at hok
  obtain ⟨u, _, hok⟩ := hok
  rw [bind_eq_ok] at hok
  obtain ⟨hd, hun, hok⟩ := hok
  simp only [ensure_bind_ok, bind_assoc] at hok
  obtain ⟨hm, hv, ⟨h1, h2, h3⟩, h4, hok⟩ := hok
  simp only [h1, h2, h3, h4] at hok
  norm_num at hok
  obtain ⟨hsize, hok⟩ := hok
  rw [bind_eq_ok] at hok
  obtain ⟨st, hst, hok⟩ := hok
  simp only [ensure_bind_ok, map_eq_ok, ensure_eq_ok, exists_const] at hok
  obtain ⟨hcrc, horig, hpair⟩ := hok
  injection hpair with hp hh
  subst hh
  exact horig


/-- C1 counterexample: a v0.3 blob whose stored footer (0) does not match
the CRC32 of its 1-byte volume (`crc32 [0] = 0xD202EF8D`) still decodes
successfully: `decode_civd_v03` returns the payload with `crc_ok = false`
instead of raising an integrity error. -/
theorem spec_C1_counterexample :
    decode_civd_v03
      ([67, 73, 51, 0, 3, 0, 1, 0, 1, 0, 1, 0, 1, 0, 0, 0, 1, 0, 0, 0, 0, 0, 0, 0]
        ++ [0] ++ [0, 0, 0, 0]) =
      .ok ([0],
        { header := { magic := [67, 73, 51, 0], version := 3, dim_x := 1, dim_y := 1,
                      dim_z := 1, channels := 1, reserved1 := [0, 0, 0],
                      orig_length := 1, reserved2 := 0 },
          dims := (1, 1, 1), channels := 1, capacity := 1, crc_ok := false }) := by
  rfl

/-- C1 amended: the legacy decoders fail closed — whenever `decode_ci3` or
`decode_ci3_v02` returns a payload, the CRC32 recomputed over the dense
voxel region equals the stored footer — but `decode_civd_v03` only
recomputes the CRC into the returned `crc_ok` flag and returns the payload
whether or not the check passed. -/
theorem spec_C1_amended :
    (∀ (blob p : List Nat) (h : CI3Header), decode_ci3 blob = .ok (p, h) →
       u32leReadList (pySlice blob 4120 4124) = .ok (crc32 (pySlice blob 24 4120))) ∧
    (∀ (blob p : List Nat) (h : CI3Header), decode_ci3_v02 blob = .ok (p, h) →
       u32leReadList (pySlice blob 16408 16412) = .ok (crc32 (pySlice blob 24 16408))) ∧
    (∀ (blob p : List Nat) (info : CivdInfoV03), decode_civd_v03 blob = .ok (p, info) →
       ∃ st, u32leReadList (blob.drop (blob.length - 4)) = .ok st ∧
         info.crc_ok = decide (crc32 (pySlice blob 24 (blob.length - 4)) = st)) :=
  ⟨fun _ _ _ hok => decode_ci3_ok_crc hok,
   fun _ _ _ hok => decode_ci3_v02_ok_crc hok,
   fun _ _ _ hok => by
     obtain ⟨st, h1, h2, _⟩ := decode_civd_v03_ok_details hok
     exact ⟨st, h1, h2⟩⟩

/-- C1 amended witness: the v0.1 decoder on a freshly encoded capsule, and
the v0.3 decoder on a concrete valid 29-byte blob. -/
theorem spec_C1_amended_witness :
    (∃ blob p h, decode_ci3 blob = .ok (p, h) ∧
       u32leReadList (pySlice blob 4120 4124) = .ok (crc32 (pySlice blob 24 4120))) ∧
    (∃ st, u32leReadList
        (([67, 73, 51, 0, 3, 0, 1, 0, 1, 0, 1, 0, 1, 0, 0, 0, 1, 0, 0, 0, 0, 0, 0, 0]
          ++ [0] ++ [141, 239, 2, 210] : List Nat).drop
          (([67, 73, 51, 0, 3, 0, 1, 0, 1, 0, 1, 0, 1, 0, 0, 0, 1, 0, 0, 0, 0, 0, 0, 0]
            ++ [0] ++ [141, 239, 2, 210] : List Nat).length - 4)) = .ok st ∧
      ({ header := { magic := [67, 73, 51, 0], version := 3, dim_x := 1, dim_y := 1,
                     dim_z := 1, channels := 1, reserved1 := [0, 0, 0],
                     orig_length := 1, reserved2 := 0 },
         dims := (1, 1, 1), channels := 1, capacity := 1,
         crc_ok := true } : CivdInfoV03).crc_ok =
        decide (crc32 (pySlice
          ([67, 73, 51, 0, 3, 0, 1, 0, 1, 0, 1, 0, 1, 0, 0, 0, 1, 0, 0, 0, 0, 0, 0, 0]
            ++ [0] ++ [141, 239, 2, 210]) 24
          (([67, 73, 51, 0, 3, 0, 1, 0, 1, 0, 1, 0, 1, 0, 0, 0, 1, 0, 0, 0, 0, 0, 0, 0]
            ++ [0] ++ [141, 239, 2, 210] : List Nat).length - 4)) = st)) := by
  constructor
  · obtain ⟨b, henc⟩ : ∃ b, encode_bytes_to_ci3 [9, 8, 7] = .ok b := ⟨_, rfl⟩
    have hdec := ci3_decode_encode henc
    exact ⟨b, _, _, hdec, spec_C1_amended.1 b _ _ hdec⟩
  · exact spec_C1_amended.2.2 _ [0] _ rfl

/-- C8 counterexample: a v0.3 blob that passes magic, size and CRC checks
but declares `orig_length = 2` while its capacity is 1 decodes without any
error: `decode_civd_v03` silently returns the capacity-truncated slice
instead of raising. -/
theorem spec_C8_counterexample :
    decode_civd_v03
      ([67, 73, 51, 0, 3, 0, 1, 0, 1, 0, 1, 0, 1, 0, 0, 0, 2, 0, 0, 0, 0, 0, 0, 0]
        ++ [0] ++ [141, 239, 2, 210]) =
      .ok ([0],
        { header := { magic := [67, 73, 51, 0], version := 3, dim_x := 1, dim_y := 1,
                      dim_z := 1, channels := 1, reserved1 := [0, 0, 0],
                      orig_length := 2, reserved2 := 0 },
          dims := (1, 1, 1), channels := 1, capacity := 1, crc_ok := true }) := by
  rfl

/-- C8 amended: the legacy decoders enforce the corrupted-length check —
`decode_ci3` (and `decode_ci3_v02`) only succeed when the header's
`orig_length` is at most the voxel capacity, and the recovered bytes are
the first `orig_length` bytes of the voxel region — while
`decode_civd_v03` performs no such check: it returns
`volume[:orig_length]`, silently truncated at capacity when the header
over-declares. -/
theorem spec_C8_amended :
    (∀ (blob p : List Nat) (h : CI3Header), decode_ci3 blob = .ok (p, h) →
       h.orig_length ≤ 4096 ∧ p = (pySlice blob 24 4120).take h.orig_length) ∧
    (∀ (blob p : List Nat) (h : CI3Header), decode_ci3_v02 blob = .ok (p, h) →
       h.orig_length ≤ 4096) ∧
    (∀ (blob p : List Nat) (info : CivdInfoV03), decode_civd_v03 blob = .ok (p, info) →
       p = (pySlice blob 24 (blob.length - 4)).take info.header.orig_length) :=
  ⟨fun _ _ _ hok => decode_ci3_ok_payload hok,
   fun _ _ _ hok => decode_ci3_v02_ok_orig hok,
   fun _ _ _ hok => by
     obtain ⟨st, h1, h2, h3⟩ := decode_civd_v03_ok_details hok
     exact h3⟩

/-- C8 amended witness: the v0.1 decoder on a freshly encoded capsule and
the v0.3 decoder on the over-declaring 29-byte blob. -/
theorem spec_C8_amended_witness :
    (∃ blob p h, decode_ci3 blob = .ok (p, h) ∧
       h.orig_length ≤ 4096 ∧ p = (pySlice blob 24 4120).take h.orig_length) ∧
    ([0] : List Nat) = (pySlice
      ([67, 73, 51, 0, 3, 0, 1, 0, 1, 0, 1, 0, 1, 0, 0, 0, 2, 0, 0, 0, 0, 0, 0, 0]
        ++ [0] ++ [141, 239, 2, 210]) 24
      (([67, 73, 51, 0, 3, 0, 1, 0, 1, 0, 1, 0, 1, 0, 0, 0, 2, 0, 0, 0, 0, 0, 0, 0]
        ++ [0] ++ [141, 239, 2, 210] : List Nat).length - 4)).take
      ({ header := { magic := [67, 73, 51, 0], version := 3, dim_x := 1, dim_y := 1,
                     dim_z := 1, channels := 1, reserved1 := [0, 0, 0],
                     orig_length := 2, reserved2 := 0 },
         dims := (1, 1, 1), channels := 1, capacity := 1,
         crc_ok := true } : CivdInfoV03).header.orig_length := by
  constructor
  · obtain ⟨b, henc⟩ : ∃ b, encode_bytes_to_ci3 [4, 5] = .ok b := ⟨_, rfl⟩
    have hdec := ci3_decode_encode henc
    obtain ⟨h1, h2⟩ := spec_C8_amended.1 b _ _ hdec
    exact ⟨b, _, _, hdec, h1, h2⟩
  · exact spec_C8_amended.2.2 _ [0] _ rfl

/-! ## C2: ROI→tile resolution -/


theorem le_gridCeilDiv_mul {dim ts : Int} (hts : 0 < ts) :
    dim ≤ gridCeilDiv dim ts * ts := by
  have h1 := Int.lt_ediv_add_one_mul_self (dim + ts - 1) hts
  rw [add_mul, one_mul] at h1
  unfold gridCeilDiv
  omega

theorem nonneg_of_lt_succ_mul {t ts v : Int} (hts : 0 < ts) (hv : 0 ≤ v)
    (h : v < t * ts + ts) : 0 ≤ t := by
  by_contra hneg
  push_neg at hneg
  have h2 : t * ts ≤ -1 * ts := mul_le_mul_of_nonneg_right (by omega) hts.le
  rw [neg_one_mul] at h2
  omega

theorem lt_grid_of_mul_lt {t g ts v dim : Int} (hts : 0 < ts) (h1 : t * ts ≤ v)
    (h2 : v < dim) (h3 : dim ≤ g * ts) : t ≤ g - 1 := by
  have h4 : t * ts < g * ts := by omega
  have h5 : t < g := lt_of_mul_lt_mul_right h4 hts.le
  omega

/-- 1D core of `tiles_for_roi`: membership of `t` in the clamped floor-div
index range equals the existence of a voxel in the clamped ROI interval
covered by tile `t`. -/
theorem axis_floor_iff (dim ts r0 r1 t : Int) (hdim : 0 < dim) (hts : 0 < ts)
    (hr0 : r0 < dim) (hr1 : 0 < r1) (hne : max 0 r0 < min dim r1) :
    (max 0 (min (max 0 r0 / ts) (gridCeilDiv dim ts - 1)) ≤ t ∧
     t ≤ max 0 (min ((min dim r1 - 1) / ts) (gridCeilDiv dim ts - 1)))
    ↔ ∃ v : Int, (r0 ≤ v ∧ v < r1) ∧ (0 ≤ v ∧ v < dim) ∧
        (t * ts ≤ v ∧ v < min (t * ts + ts) dim) := by
  have hgmul : dim ≤ gridCeilDiv dim ts * ts := le_gridCeilDiv_mul hts
  have hx0 : (0:Int) ≤ max 0 r0 := le_max_left 0 r0
  have htStart0 : 0 ≤ max 0 r0 / ts := Int.ediv_nonneg hx0 hts.le
  have htmono : max 0 r0 / ts ≤ (min dim r1 - 1) / ts :=
    Int.ediv_le_ediv hts (by omega)
  have htEnd : (min dim r1 - 1) / ts ≤ gridCeilDiv dim ts - 1 := by
    have h5 : (min dim r1 - 1) / ts < gridCeilDiv dim ts :=
      (Int.ediv_lt_iff_lt_mul hts).mpr (by omega)
    omega
  constructor
  · rintro ⟨hlo, hhi⟩
    have hlo' : max 0 r0 / ts ≤ t := by omega
    have hhi' : t ≤ (min dim r1 - 1) / ts := by omega
    have h6 : max 0 r0 < (t + 1) * ts := by
      have := (Int.ediv_lt_iff_lt_mul hts).mp (show max 0 r0 / ts < t + 1 by omega)
      exact this
    rw [add_mul, one_mul] at h6
    have h7 : t * ts ≤ min dim r1 - 1 := (Int.le_ediv_iff_mul_le hts).mp hhi'
    refine ⟨max (t * ts) (max 0 r0), ?_, ?_, ?_⟩ <;> omega
  · rintro ⟨v, ⟨hv1, hv2⟩, ⟨hv3, hv4⟩, hv5, hv6⟩
    have h0t : 0 ≤ t := nonneg_of_lt_succ_mul hts hv3 (by omega)
    have hgrid : t ≤ gridCeilDiv dim ts - 1 := lt_grid_of_mul_lt hts hv5 hv4 hgmul
    have hlo : max 0 r0 / ts ≤ t := by
      have h8 : max 0 r0 < (t + 1) * ts := by rw [add_mul, one_mul]; omega
      have := (Int.ediv_lt_iff_lt_mul hts).mpr h8
      omega
    have hhi : t ≤ (min dim r1 - 1) / ts :=
      (Int.le_ediv_iff_mul_le hts).mpr (by omega)
    omega

/-- 1D core of `query_tiles_for_roi`: for a positive-extent ROI interval,
the scan conditions of the source equal the existence of a voxel in the
clamped ROI interval covered by tile `t`. -/
theorem axis_scan_iff (dim ts n r0 r1 t : Int) (hdim : 0 < dim) (hts : 0 < ts)
    (hn : n = gridCeilDiv dim ts) (hext : r0 < r1) :
    (0 ≤ t ∧ t ≤ n - 1 ∧ ¬(min (t * ts + ts) dim ≤ t * ts) ∧
     t * ts < r1 ∧ r0 < min (t * ts + ts) dim)
    ↔ ∃ v : Int, (r0 ≤ v ∧ v < r1) ∧ (0 ≤ v ∧ v < dim) ∧
        (t * ts ≤ v ∧ v < min (t * ts + ts) dim) := by
  subst hn
  have hgmul : dim ≤ gridCeilDiv dim ts * ts := le_gridCeilDiv_mul hts
  constructor
  · rintro ⟨h0t, hgr, hclip, hover1, hover2⟩
    have htsnn : 0 ≤ t * ts := mul_nonneg h0t hts.le
    refine ⟨max (t * ts) (max r0 0), ?_, ?_, ?_⟩ <;> omega
  · rintro ⟨v, ⟨hv1, hv2⟩, ⟨hv3, hv4⟩, hv5, hv6⟩
    have h0t : 0 ≤ t := nonneg_of_lt_succ_mul hts hv3 (by omega)
    have hgrid : t ≤ gridCeilDiv dim ts - 1 := lt_grid_of_mul_lt hts hv5 hv4 hgmul
    refine ⟨h0t, hgrid, by omega, by omega, by omega⟩

theorem tiles_for_roi_iff (m : TileManifestV07) (roi : RoiV06) (t : TileIndexV07)
    (hdx : 0 < m.grid.dims.1) (hdy : 0 < m.grid.dims.2.1) (hdz : 0 < m.grid.dims.2.2)
    (htx : 0 < m.grid.tile.1) (hty : 0 < m.grid.tile.2.1) (htz : 0 < m.grid.tile.2.2) :
    t ∈ tiles_for_roi m roi ↔
      ∃ v, voxelInRoi roi v ∧ voxelInVolume m.grid.dims v ∧
        voxelInTileBounds m.grid.dims m.grid.tile t v := by
  obtain ⟨ver, ⟨⟨dx, dy, dz⟩, ⟨txs, tys, tzs⟩⟩, ch, dt, or, sig⟩ := m
  obtain ⟨ttx, tty, ttz⟩ := t
  dsimp only at hdx hdy hdz htx hty htz ⊢
  simp only [tiles_for_roi, TileGridSpecV07.grid_dims]
  simp only [voxelInRoi, voxelInVolume, voxelInTileBounds]
  split_ifs with hA hB hC
  · simp only [List.not_mem_nil, false_iff]
    rintro ⟨⟨vx, vy, vz⟩, hroi, hvol, htile⟩
    simp only at hroi hvol htile
    omega
  · simp only [List.not_mem_nil, false_iff]
    rintro ⟨⟨vx, vy, vz⟩, hroi, hvol, htile⟩
    simp only at hroi hvol htile
    omega
  · simp only [List.not_mem_nil, false_iff]
    rintro ⟨⟨vx, vy, vz⟩, hroi, hvol, htile⟩
    simp only at hroi hvol htile
    omega
  · push_neg at hA hB hC
    simp only [List.mem_flatMap, List.mem_map, mem_intRange, TileIndexV07.mk.injEq]
    constructor
    · rintro ⟨tz, ⟨hz1, hz2⟩, ty, ⟨hy1, hy2⟩, tx, ⟨hx1, hx2⟩, rfl, rfl, rfl⟩
      obtain ⟨vx, hvx⟩ := (axis_floor_iff dx txs roi.x (roi.x + roi.w) tx hdx htx
        hA.1 hB.1 (by omega)).mp ⟨hx1, hx2⟩
      obtain ⟨vy, hvy⟩ := (axis_floor_iff dy tys roi.y (roi.y + roi.h) ty hdy hty
        hA.2.1 hB.2.1 (by omega)).mp ⟨hy1, hy2⟩
      obtain ⟨vz, hvz⟩ := (axis_floor_iff dz tzs roi.z (roi.z + roi.d) tz hdz htz
        hA.2.2 hB.2.2 (by omega)).mp ⟨hz1, hz2⟩
      exact ⟨(vx, vy, vz), by simp only; omega, by simp only; omega, by simp only; omega⟩
    · rintro ⟨⟨vx, vy, vz⟩, hroi, hvol, htile⟩
      simp only at hroi hvol htile
      have hx := (axis_floor_iff dx txs roi.x (roi.x + roi.w) ttx hdx htx
        hA.1 hB.1 (by omega)).mpr ⟨vx, by omega, by omega, by omega⟩
      have hy := (axis_floor_iff dy tys roi.y (roi.y + roi.h) tty hdy hty
        hA.2.1 hB.2.1 (by omega)).mpr ⟨vy, by omega, by omega, by omega⟩
      have hz := (axis_floor_iff dz tzs roi.z (roi.z + roi.d) ttz hdz htz
        hA.2.2 hB.2.2 (by omega)).mpr ⟨vz, by omega, by omega, by omega⟩
      exact ⟨ttz, ⟨hz.1, hz.2⟩, tty, ⟨hy.1, hy.2⟩, ttx, ⟨hx.1, hx.2⟩, rfl, rfl, rfl⟩

theorem ite_none_else_eq_some {α : Type} {p : Prop} [Decidable p] {x : Option α} {b : α} :
    ((if p then none else x) = some b) ↔ ¬p ∧ x = some b := by
  split <;> simp_all

theorem query_tiles_for_roi_iff (ts : TilingSpecV07) (roi : RoiV06) (t : TileIndexV07)
    (hdx : 0 < ts.volume_dims.1) (hdy : 0 < ts.volume_dims.2.1) (hdz : 0 < ts.volume_dims.2.2)
    (htx : 0 < ts.tile_size.1) (hty : 0 < ts.tile_size.2.1) (htz : 0 < ts.tile_size.2.2)
    (hn : ts.tiles_per_axis =
      (gridCeilDiv ts.volume_dims.1 ts.tile_size.1,
       gridCeilDiv ts.volume_dims.2.1 ts.tile_size.2.1,
       gridCeilDiv ts.volume_dims.2.2 ts.tile_size.2.2))
    (hw : 0 < roi.w) (hh : 0 < roi.h) (hd : 0 < roi.d) :
    t ∈ query_tiles_for_roi ts roi ↔
      ∃ v, voxelInRoi roi v ∧ voxelInVolume ts.volume_dims v ∧
        voxelInTileBounds ts.volume_dims ts.tile_size t v := by
  obtain ⟨⟨dx, dy, dz⟩, ⟨txs, tys, tzs⟩, ⟨nx, ny, nz⟩⟩ := ts
  obtain ⟨ttx, tty, ttz⟩ := t
  dsimp only at hdx hdy hdz htx hty htz hn ⊢
  simp only [Prod.mk.injEq] at hn
  obtain ⟨hnx, hny, hnz⟩ := hn
  simp only [query_tiles_for_roi, voxelInRoi, voxelInVolume, voxelInTileBounds]
  simp only [List.mem_flatMap, mem_intRange, List.mem_ite_nil_left, List.mem_filterMap,
    ite_none_else_eq_some, Option.some.injEq, TileIndexV07.mk.injEq, not_not]
  constructor
  · rintro ⟨tz, ⟨hz0, hz1⟩, hzc, hzo, ty, ⟨hy0, hy1⟩, hyc, hyo, tx, ⟨hx0, hx1⟩,
      hxc, hxo, rfl, rfl, rfl⟩
    obtain ⟨vx, hvx⟩ := (axis_scan_iff dx txs nx roi.x (roi.x + roi.w) tx hdx htx
      hnx (by omega)).mp ⟨by omega, by omega, by omega, by omega, by omega⟩
    obtain ⟨vy, hvy⟩ := (axis_scan_iff dy tys ny roi.y (roi.y + roi.h) ty hdy hty
      hny (by omega)).mp ⟨by omega, by omega, by omega, by omega, by omega⟩
    obtain ⟨vz, hvz⟩ := (axis_scan_iff dz tzs nz roi.z (roi.z + roi.d) tz hdz htz
      hnz (by omega)).mp ⟨by omega, by omega, by omega, by omega, by omega⟩
    exact ⟨(vx, vy, vz), by simp only; omega, by simp only; omega, by simp only; omega⟩
  · rintro ⟨⟨vx, vy, vz⟩, hroi, hvol, htile⟩
    simp only at hroi hvol htile
    have hx := (axis_scan_iff dx txs nx roi.x (roi.x + roi.w) ttx hdx htx
      hnx (by omega)).mpr ⟨vx, by omega, by omega, by omega⟩
    have hy := (axis_scan_iff dy tys ny roi.y (roi.y + roi.h) tty hdy hty
      hny (by omega)).mpr ⟨vy, by omega, by omega, by omega⟩
    have hz := (axis_scan_iff dz tzs nz roi.z (roi.z + roi.d) ttz hdz htz
      hnz (by omega)).mpr ⟨vz, by omega, by omega, by omega⟩
    exact ⟨ttz, ⟨hz.1, hz.2.1⟩, by omega, by omega,
      tty, ⟨hy.1, hy.2.1⟩, by omega, by omega,
      ttx, ⟨hx.1, hx.2.1⟩, by omega, by omega, rfl, rfl, rfl⟩


/-- C2 counterexample: a degenerate (zero-extent) ROI whose origin lies
strictly inside a tile: `query_tiles_for_roi` returns that tile even
though the ROI contains no voxel at all, so it does not return the empty
set for degenerate ROIs. -/
theorem spec_C2_counterexample :
    query_tiles_for_roi
      { volume_dims := (8, 8, 8), tile_size := (8, 8, 8), tiles_per_axis := (1, 1, 1) }
      { x := 1, y := 1, z := 1, w := 0, h := 0, d := 0 } =
      [{ tx := 0, ty := 0, tz := 0 }] ∧
    ∀ v : Int × Int × Int,
      ¬ voxelInRoi { x := 1, y := 1, z := 1, w := 0, h := 0, d := 0 } v := by
  constructor
  · rfl
  · intro v hv
    unfold voxelInRoi at hv
    dsimp only at hv
    omega

/-- C2 amended: `tiles_for_roi` is sound and complete for every ROI — a
tile index is returned exactly when the tile's (volume-clipped) half-open
bounds contain a voxel of the ROI intersected with the volume, and in
particular a degenerate ROI yields the empty set; `query_tiles_for_roi`
satisfies the same equivalence for every ROI with positive extent on all
three axes (given the `tiles_per_axis = ceil(dim/tile)` invariant of its
tiling spec), but may return tiles for a degenerate ROI (see the
counterexample). -/
theorem spec_C2_amended :
    (∀ (m : TileManifestV07) (roi : RoiV06) (t : TileIndexV07),
       0 < m.grid.dims.1 → 0 < m.grid.dims.2.1 → 0 < m.grid.dims.2.2 →
       0 < m.grid.tile.1 → 0 < m.grid.tile.2.1 → 0 < m.grid.tile.2.2 →
       (t ∈ tiles_for_roi m roi ↔
         ∃ v, voxelInRoi roi v ∧ voxelInVolume m.grid.dims v ∧
           voxelInTileBounds m.grid.dims m.grid.tile t v)) ∧
    (∀ (ts : TilingSpecV07) (roi : RoiV06) (t : TileIndexV07),
       0 < ts.volume_dims.1 → 0 < ts.volume_dims.2.1 → 0 < ts.volume_dims.2.2 →
       0 < ts.tile_size.1 → 0 < ts.tile_size.2.1 → 0 < ts.tile_size.2.2 →
       ts.tiles_per_axis =
         (gridCeilDiv ts.volume_dims.1 ts.tile_size.1,
          gridCeilDiv ts.volume_dims.2.1 ts.tile_size.2.1,
          gridCeilDiv ts.volume_dims.2.2 ts.tile_size.2.2) →
       0 < roi.w → 0 < roi.h → 0 < roi.d →
       (t ∈ query_tiles_for_roi ts roi ↔
         ∃ v, voxelInRoi roi v ∧ voxelInVolume ts.volume_dims v ∧
           voxelInTileBounds ts.volume_dims ts.tile_size t v)) :=
  ⟨tiles_for_roi_iff, query_tiles_for_roi_iff⟩

/-- C2 amended witness: the spec's own scenario — dims (16,16,16), tiles
(8,8,8), full-volume ROI — at tile index (1,1,1), for both resolvers. -/
theorem spec_C2_amended_witness :
    (({ tx := 1, ty := 1, tz := 1 } : TileIndexV07) ∈ tiles_for_roi
        { version := "0.7", grid := { dims := (16, 16, 16), tile := (8, 8, 8) },
          channels := 2, dtype := "uint8" }
        { x := 0, y := 0, z := 0, w := 16, h := 16, d := 16 } ↔
      ∃ v, voxelInRoi { x := 0, y := 0, z := 0, w := 16, h := 16, d := 16 } v ∧
        voxelInVolume (16, 16, 16) v ∧
        voxelInTileBounds (16, 16, 16) (8, 8, 8) { tx := 1, ty := 1, tz := 1 } v) ∧
    (({ tx := 1, ty := 1, tz := 1 } : TileIndexV07) ∈ query_tiles_for_roi
        { volume_dims := (16, 16, 16), tile_size := (8, 8, 8), tiles_per_axis := (2, 2, 2) }
        { x := 0, y := 0, z := 0, w := 16, h := 16, d := 16 } ↔
      ∃ v, voxelInRoi { x := 0, y := 0, z := 0, w := 16, h := 16, d := 16 } v ∧
        voxelInVolume (16, 16, 16) v ∧
        voxelInTileBounds (16, 16, 16) (8, 8, 8) { tx := 1, ty := 1, tz := 1 } v) :=
  ⟨spec_C2_amended.1
      { version := "0.7", grid := { dims := (16, 16, 16), tile := (8, 8, 8) },
        channels := 2, dtype := "uint8" }
      { x := 0, y := 0, z := 0, w := 16, h := 16, d := 16 }
      { tx := 1, ty := 1, tz := 1 }
      (by decide) (by decide) (by decide) (by decide) (by decide) (by decide),
   spec_C2_amended.2
      { volume_dims := (16, 16, 16), tile_size := (8, 8, 8), tiles_per_axis := (2, 2, 2) }
      { x := 0, y := 0, z := 0, w := 16, h := 16, d := 16 }
      { tx := 1, ty := 1, tz := 1 }
      (by decide) (by decide) (by decide) (by decide) (by decide) (by decide)
      (by decide) (by decide) (by decide) (by decide)⟩

/-! ## C10: v0.8 tiler emits one fixed-size zero-padded tile per grid index -/

theorem ensure_pos {p : Prop} [Decidable p] (hp : p) (msg : String) :
    ensure p msg = .ok () := by
  simp [ensure, hp]

theorem tilePayloadV08_length (buf : List Nat) (spec : VolumeSpecV06) (k : Nat)
    (sx sy sz tx ty tz : Int) :
    (tilePayloadV08 buf spec k sx sy sz tx ty tz).length =
      sz.toNat * sy.toNat * sx.toNat * spec.channels.toNat * k := by
  obtain ⟨⟨dx, dy, dz⟩, ch, dt, or, sig⟩ := spec
  simp [tilePayloadV08]

theorem tilePayloadV08_padding (buf : List Nat) (spec : VolumeSpecV06) (k : Nat)
    (sx sy sz tx ty tz : Int) (n : Nat)
    (hn : n < sz.toNat * sy.toNat * sx.toNat * spec.channels.toNat * k)
    (hout : ¬(tz * sz + ((tileByteCoordsV08 spec.order sz.toNat sy.toNat sx.toNat
          spec.channels.toNat k n).1 : Int) < min (tz * sz + sz) spec.dims.2.2 ∧
        ty * sy + ((tileByteCoordsV08 spec.order sz.toNat sy.toNat sx.toNat
          spec.channels.toNat k n).2.1 : Int) < min (ty * sy + sy) spec.dims.2.1 ∧
        tx * sx + ((tileByteCoordsV08 spec.order sz.toNat sy.toNat sx.toNat
          spec.channels.toNat k n).2.2.1 : Int) < min (tx * sx + sx) spec.dims.1)) :
    (tilePayloadV08 buf spec k sx sy sz tx ty tz).getD n 0 = 0 := by
  obtain ⟨⟨dx, dy, dz⟩, ch, dt, or, sig⟩ := spec
  dsimp only at hout hn
  simp only [tilePayloadV08, List.getD_eq_getElem?_getD, List.getElem?_map,
    List.getElem?_range hn, Option.map_some, Option.getD_some]
  exact if_neg hout

theorem nodup_intRange (lo hi : Int) : (intRange lo hi).Nodup :=
  List.Nodup.map (fun a b h => by omega) (List.nodup_range _)

theorem tilePayloadV07_length (buf : List Nat) (spec : VolumeSpecV06) (k : Nat)
    (x0 x1 y0 y1 z0 z1 : Int) :
    (tilePayloadV07 buf spec k x0 x1 y0 y1 z0 z1).length =
      (z1 - z0).toNat * (y1 - y0).toNat * (x1 - x0).toNat * spec.channels.toNat * k := by
  simp [tilePayloadV07]

theorem v08_tiles_run (buf : List Nat) (dims : Int × Int × Int) (ch : Int)
    (dt or sig : String) (txs tys tzs : Int) (k : Nat)
    (hk : dtypeItemsize dt = some k)
    (hord : or = "C" ∨ or = "F")
    (hbuf : (buf.length : Int) = dims.1 * dims.2.1 * dims.2.2 * ch * k)
    (hpos : 0 < txs ∧ 0 < tys ∧ 0 < tzs) :
    tile_volume_buffer_v08 buf
      { dims := dims, channels := ch, dtype := dt, order := or, signature := sig }
      (txs, tys, tzs) =
    .ok ({ volume_dims := dims, tile_size := (txs, tys, tzs),
           tiles_per_axis := (gridCeilDiv dims.1 txs, gridCeilDiv dims.2.1 tys,
                              gridCeilDiv dims.2.2 tzs) },
         tileGridV08 (gridCeilDiv dims.1 txs) (gridCeilDiv dims.2.1 tys)
           (gridCeilDiv dims.2.2 tzs)
           (fun tx ty tz => tilePayloadV08 buf
             { dims := dims, channels := ch, dtype := dt, order := or, signature := sig }
             k txs tys tzs tx ty tz)) := by
  obtain ⟨dx, dy, dz⟩ := dims
  dsimp only at hbuf ⊢
  simp only [tile_volume_buffer_v08, hk, ofOption, ok_bind, compute_tiling_spec_v08]
  rw [ensure_pos hord, ensure_pos hbuf, ensure_pos hpos]
  simp only [ok_bind, pure_bind, pure_eq_ok, gridCeilDiv, tileGridV08]

theorem mem_map_fst_tileGridV08 (nx ny nz : Int) (g : Int → Int → Int → List Nat)
    (t : TileIndexV07) :
    t ∈ (tileGridV08 nx ny nz g).map Prod.fst ↔
      (0 ≤ t.tx ∧ t.tx < nx ∧ 0 ≤ t.ty ∧ t.ty < ny ∧ 0 ≤ t.tz ∧ t.tz < nz) := by
  obtain ⟨tx, ty, tz⟩ := t
  simp only [tileGridV08, List.map_flatMap, List.map_map, List.mem_flatMap, List.mem_map,
    Function.comp, mem_intRange, TileIndexV07.mk.injEq]
  constructor
  · rintro ⟨a, ⟨ha0, ha1⟩, b, ⟨hb0, hb1⟩, c, ⟨hc0, hc1⟩, rfl, rfl, rfl⟩
    refine ⟨hc0, by omega, hb0, by omega, ha0, by omega⟩
  · rintro ⟨h1, h2, h3, h4, h5, h6⟩
    exact ⟨tz, ⟨h5, by omega⟩, ty, ⟨h3, by omega⟩, tx, ⟨h1, by omega⟩, rfl, rfl, rfl⟩

theorem nodup_map_fst_tileGridV08 (nx ny nz : Int) (g : Int → Int → Int → List Nat) :
    ((tileGridV08 nx ny nz g).map Prod.fst).Nodup := by
  simp only [tileGridV08, List.map_flatMap, List.map_map, Function.comp]
  refine List.nodup_flatMap.2 ⟨fun tz _ => ?_, ?_⟩
  · refine List.nodup_flatMap.2 ⟨fun ty _ => ?_, ?_⟩
    · exact List.Nodup.map (fun a b h => by cases h; rfl) (nodup_intRange 0 (nx - 1))
    · refine List.Pairwise.imp ?_ (nodup_intRange 0 (ny - 1))
      intro a b hab x hxa hxb
      simp only [Function.onFun, List.mem_map] at hxa hxb
      obtain ⟨u, _, rfl⟩ := hxa
      obtain ⟨v, _, hv⟩ := hxb
      exact hab (congrArg TileIndexV07.ty hv).symm
  · refine List.Pairwise.imp ?_ (nodup_intRange 0 (nz - 1))
    intro a b hab x hxa hxb
    simp only [Function.onFun, List.mem_flatMap, List.mem_map] at hxa hxb
    obtain ⟨ya, _, u, _, rfl⟩ := hxa
    obtain ⟨yb, _, v, _, hv⟩ := hxb
    exact hab (congrArg TileIndexV07.tz hv).symm

theorem mem_tileGridV08 (nx ny nz : Int) (g : Int → Int → Int → List Nat)
    (pr : TileIndexV07 × List Nat) (hpr : pr ∈ tileGridV08 nx ny nz g) :
    pr.2 = g pr.1.tx pr.1.ty pr.1.tz := by
  simp only [tileGridV08, List.mem_flatMap, List.mem_map] at hpr
  obtain ⟨tz, _, ty, _, tx, _, rfl⟩ := hpr
  rfl

theorem v07_tiles_payload_clipped (buf : List Nat) (dims : Int × Int × Int) (ch : Int)
    (dt or sig : String) (txs tys tzs : Int) (k : Nat)
    (hk : dtypeItemsize dt = some k)
    (tiling7 : TilingSpecV07) (tiles7 : List (TileIndexV07 × List Nat))
    (hok : tile_volume_buffer buf
      { dims := dims, channels := ch, dtype := dt, order := or, signature := sig }
      (txs, tys, tzs) = .ok (tiling7, tiles7))
    (pr : TileIndexV07 × List Nat) (hpr : pr ∈ tiles7) :
    pr.2.length =
      (min (pr.1.tz * tzs + tzs) dims.2.2 - pr.1.tz * tzs).toNat *
      (min (pr.1.ty * tys + tys) dims.2.1 - pr.1.ty * tys).toNat *
      (min (pr.1.tx * txs + txs) dims.1 - pr.1.tx * txs).toNat * ch.toNat * k := by
  obtain ⟨dx, dy, dz⟩ := dims
  simp only [tile_volume_buffer, computeTilesPerAxis, hk, ofOption, ok_bind,
    bind_eq_ok, ensure_bind_ok, pure_eq_ok] at hok
  obtain ⟨tpa, ⟨-, -, htpa⟩, -, -, -, -, hpair⟩ := hok
  subst htpa
  rw [Prod.mk.injEq] at hpair
  obtain ⟨-, htiles⟩ := hpair
  subst htiles
  dsimp only
  simp only [List.mem_flatMap] at hpr
  obtain ⟨tzi, htz, hpr⟩ := hpr
  split at hpr
  · simp at hpr
  · simp only [List.mem_flatMap] at hpr
    obtain ⟨tyi, hty, hpr⟩ := hpr
    split at hpr
    · simp at hpr
    · simp only [List.mem_filterMap] at hpr
      obtain ⟨txi, htx, hpr⟩ := hpr
      split at hpr
      · simp at hpr
      · injection hpr with hpr
        subst hpr
        simpa using tilePayloadV07_length buf _ k _ _ _ _ _ _

/-- C10: for every volume buffer matching its spec (supported dtype, order
"C" or "F", buffer length = x*y*z*channels*itemsize) and every positive
tile size, `tile_volume_buffer_v08` succeeds and produces exactly one tile
per grid index (the keys are duplicate-free and range over the full
ceil-division grid), every tile payload - edge tiles included - has the
same fixed size tile_z*tile_y*tile_x*channels*itemsize bytes, and every
payload byte whose voxel coordinate falls outside the volume is zero
(zero-padding); in contrast, the v0.7 packer `tile_volume_buffer` clips
each edge tile payload to the volume boundary. -/
theorem spec_C10_v08_fixed_tiles (buf : List Nat) (dims : Int × Int × Int) (ch : Int)
    (dt or sig : String) (txs tys tzs : Int) (k : Nat)
    (hk : dtypeItemsize dt = some k)
    (hord : or = "C" ∨ or = "F")
    (hbuf : (buf.length : Int) = dims.1 * dims.2.1 * dims.2.2 * ch * k)
    (hpos : 0 < txs ∧ 0 < tys ∧ 0 < tzs) :
    ∃ tiling tiles,
      tile_volume_buffer_v08 buf
        { dims := dims, channels := ch, dtype := dt, order := or, signature := sig }
        (txs, tys, tzs) = .ok (tiling, tiles) ∧
      (tiles.map Prod.fst).Nodup ∧
      (∀ t : TileIndexV07, t ∈ tiles.map Prod.fst ↔
        (0 ≤ t.tx ∧ t.tx < gridCeilDiv dims.1 txs ∧
         0 ≤ t.ty ∧ t.ty < gridCeilDiv dims.2.1 tys ∧
         0 ≤ t.tz ∧ t.tz < gridCeilDiv dims.2.2 tzs)) ∧
      tiling.tiles_per_axis =
        (gridCeilDiv dims.1 txs, gridCeilDiv dims.2.1 tys, gridCeilDiv dims.2.2 tzs) ∧
      (∀ pr ∈ tiles, pr.2.length = tzs.toNat * tys.toNat * txs.toNat * ch.toNat * k) ∧
      (∀ pr ∈ tiles, ∀ n : Nat, n < tzs.toNat * tys.toNat * txs.toNat * ch.toNat * k →
        ¬(pr.1.tz * tzs + ((tileByteCoordsV08 or tzs.toNat tys.toNat txs.toNat
              ch.toNat k n).1 : Int) < min (pr.1.tz * tzs + tzs) dims.2.2 ∧
          pr.1.ty * tys + ((tileByteCoordsV08 or tzs.toNat tys.toNat txs.toNat
              ch.toNat k n).2.1 : Int) < min (pr.1.ty * tys + tys) dims.2.1 ∧
          pr.1.tx * txs + ((tileByteCoordsV08 or tzs.toNat tys.toNat txs.toNat
              ch.toNat k n).2.2.1 : Int) < min (pr.1.tx * txs + txs) dims.1) →
        pr.2.getD n 0 = 0) ∧
      (∀ tiling7 tiles7, tile_volume_buffer buf
          { dims := dims, channels := ch, dtype := dt, order := or, signature := sig }
          (txs, tys, tzs) = .ok (tiling7, tiles7) →
        ∀ pr ∈ tiles7, pr.2.length =
          (min (pr.1.tz * tzs + tzs) dims.2.2 - pr.1.tz * tzs).toNat *
          (min (pr.1.ty * tys + tys) dims.2.1 - pr.1.ty * tys).toNat *
          (min (pr.1.tx * txs + txs) dims.1 - pr.1.tx * txs).toNat * ch.toNat * k) := by
  refine ⟨_, _, v08_tiles_run buf dims ch dt or sig txs tys tzs k hk hord hbuf hpos,
    nodup_map_fst_tileGridV08 _ _ _ _,
    fun t => mem_map_fst_tileGridV08 _ _ _ _ t, rfl, ?_, ?_, ?_⟩
  · intro pr hpr
    rw [mem_tileGridV08 _ _ _ _ pr hpr]
    exact tilePayloadV08_length buf _ k txs tys tzs pr.1.tx pr.1.ty pr.1.tz
  · intro pr hpr n hn hout
    rw [mem_tileGridV08 _ _ _ _ pr hpr]
    exact tilePayloadV08_padding buf _ k txs tys tzs pr.1.tx pr.1.ty pr.1.tz n hn hout
  · intro tiling7 tiles7 hok pr hpr
    exact v07_tiles_payload_clipped buf dims ch dt or sig txs tys tzs k hk tiling7 tiles7
      hok pr hpr

/-- Witness for C10 at a concrete input: a 2-voxel uint8 volume of dims
(2,1,1), one channel, tiled with tile size (2,2,2). -/
theorem spec_C10_v08_fixed_tiles_witness :
    dtypeItemsize "uint8" = some 1 ∧ (("C" : String) = "C" ∨ ("C" : String) = "F") ∧
    (([5, 6].length : Int) = 2 * 1 * 1 * 1 * 1) ∧
    ((0 : Int) < 2 ∧ (0 : Int) < 2 ∧ (0 : Int) < 2) ∧
    (∃ tiling tiles,
      tile_volume_buffer_v08 [5, 6]
        { dims := (2, 1, 1), channels := 1, dtype := "uint8", order := "C",
          signature := "CI-VOL-C" }
        (2, 2, 2) = .ok (tiling, tiles) ∧
      (tiles.map Prod.fst).Nodup ∧
      (∀ t : TileIndexV07, t ∈ tiles.map Prod.fst ↔
        (0 ≤ t.tx ∧ t.tx < gridCeilDiv 2 2 ∧
         0 ≤ t.ty ∧ t.ty < gridCeilDiv 1 2 ∧
         0 ≤ t.tz ∧ t.tz < gridCeilDiv 1 2)) ∧
      tiling.tiles_per_axis = (gridCeilDiv 2 2, gridCeilDiv 1 2, gridCeilDiv 1 2) ∧
      (∀ pr ∈ tiles, pr.2.length = (2 : Int).toNat * (2 : Int).toNat * (2 : Int).toNat *
        (1 : Int).toNat * 1) ∧
      (∀ pr ∈ tiles, ∀ n : Nat, n < (2 : Int).toNat * (2 : Int).toNat * (2 : Int).toNat *
          (1 : Int).toNat * 1 →
        ¬(pr.1.tz * 2 + ((tileByteCoordsV08 "C" (2 : Int).toNat (2 : Int).toNat
              (2 : Int).toNat (1 : Int).toNat 1 n).1 : Int) < min (pr.1.tz * 2 + 2) 1 ∧
          pr.1.ty * 2 + ((tileByteCoordsV08 "C" (2 : Int).toNat (2 : Int).toNat
              (2 : Int).toNat (1 : Int).toNat 1 n).2.1 : Int) < min (pr.1.ty * 2 + 2) 1 ∧
          pr.1.tx * 2 + ((tileByteCoordsV08 "C" (2 : Int).toNat (2 : Int).toNat
              (2 : Int).toNat (1 : Int).toNat 1 n).2.2.1 : Int) < min (pr.1.tx * 2 + 2) 2) →
        pr.2.getD n 0 = 0) ∧
      (∀ tiling7 tiles7, tile_volume_buffer [5, 6]
          { dims := (2, 1, 1), channels := 1, dtype := "uint8", order := "C",
            signature := "CI-VOL-C" }
          (2, 2, 2) = .ok (tiling7, tiles7) →
        ∀ pr ∈ tiles7, pr.2.length =
          (min (pr.1.tz * 2 + 2) 1 - pr.1.tz * 2).toNat *
          (min (pr.1.ty * 2 + 2) 1 - pr.1.ty * 2).toNat *
          (min (pr.1.tx * 2 + 2) 2 - pr.1.tx * 2).toNat * (1 : Int).toNat * 1)) :=
  ⟨rfl, Or.inl rfl, by decide, by decide,
    spec_C10_v08_fixed_tiles [5, 6] (2, 1, 1) 1 "uint8" "C" "CI-VOL-C" 2 2 2 1
      rfl (Or.inl rfl) (by decide) (by decide)⟩

end CorpusInformaticus
